import Mathlib

/-!
# OracleBox controller — verification of the audio arbitration core

Shallow embedding of `src/pi/oraclebox.py` (OracleBox Merged Controller,
v2.3.0): the SoX command builder, the audio-device Arbiter loop
(`fx_thread`), the device-change path (`set_audio_output_device`), the
one-shot playback path (`play_sound`), the sweep ramp (`sweep_thread`)
and the text-command dispatcher (`handle_command`).

Mutable Python globals become explicit state records; each loop body or
call becomes a function from state to state plus a list of emitted
process actions (start/stop of external pipeline processes).  External
subprocess results (ALSA mixer, bluetoothctl, the filesystem, spawn
success) are supplied by an environment record.
-/

namespace OracleBox

/-! ## FxConfig and the SoX command builder (`build_sox_cmd_from_fx`) -/

/-- `FxConfig`: audio FX configuration for the SoX effects chain.
Field defaults follow `FxConfig.__init__` (FM_RAW_PORTAL defaults). -/
structure FxConfig where
  enabled : Bool := false
  bp_low : Int := 500
  bp_high : Int := 2600
  reverb_room : Int := 30
  reverb_damping : Int := 45
  reverb_wet : Int := 85
  reverb_dry : Int := 65
  contrast_amount : Int := 18
  pre_gain_db : Int := -6
  post_gain_db : Int := 8
  preset : String := "FM_RAW_PORTAL"
  deriving Repr, DecidableEq

/-- Clamped parameter snapshot computed inside `build_sox_cmd_from_fx`
("Clamp values to safe ranges"). -/
structure FxParams where
  bp_low : Int
  bp_high : Int
  contrast_amount : Int
  pre_gain : Int
  post_gain : Int
  room : Int
  damp : Int
  wet : Int
  dry : Int
  deriving Repr, DecidableEq

/-- The clamping performed by `build_sox_cmd_from_fx` before building
the command (Python `max`/`min` chains, lines 1743-1751). -/
def clampFx (fx : FxConfig) : FxParams :=
  let bp_low := max 100 (min 2000 fx.bp_low)
  { bp_low := bp_low
    bp_high := max (bp_low + 200) (min 5000 fx.bp_high)
    contrast_amount := max 0 (min 40 fx.contrast_amount)
    pre_gain := max (-24) (min 0 fx.pre_gain_db)
    post_gain := max 0 (min 18 fx.post_gain_db)
    room := max 0 (min 100 fx.reverb_room)
    damp := max 0 (min 100 fx.reverb_damping)
    wet := max 0 (min 100 fx.reverb_wet)
    dry := max 0 (min 100 fx.reverb_dry) }

/-- The `effects` list built by `build_sox_cmd_from_fx`. -/
def buildSoxEffects (p : FxParams) : List String :=
  ["highpass", "250",
   "lowpass", "4800",
   "compand", "0.08,0.2", "-28,-18", "6",
   "gain", toString p.pre_gain,
   "sinc", toString p.bp_low ++ "-" ++ toString p.bp_high]
  ++ (if p.contrast_amount > 0 then ["contrast", toString p.contrast_amount] else [])
  ++ ["reverb", toString p.room, toString p.damp, toString p.wet, toString p.dry,
      "gain", toString p.post_gain,
      "remix", "1,2", "1,2"]

/-- The shell pipeline string interpolated into the `sh -c` argument. -/
def soxPipeline (p : FxParams) (outputDevice : String) : String :=
  "arecord -D plughw:3,0 -f S16_LE -r 48000 -c 2 | " ++
  "sox -t wav - -t wav - " ++ String.intercalate " " (buildSoxEffects p) ++ " | " ++
  "aplay -D " ++ outputDevice

/-- `build_sox_cmd_from_fx`: returns `none` when FX is disabled,
otherwise the `["sh", "-c", pipeline]` argv list built from the clamped
parameter snapshot and the current output device. -/
def buildSoxCmdFromFx (fx : FxConfig) (outputDevice : String) : Option (List String) :=
  if !fx.enabled then none
  else some ["sh", "-c", soxPipeline (clampFx fx) outputDevice]

/-- `_start_passthrough`'s fixed pipeline command for a given output
device (pure ALSA passthrough, lines 1830-1835). -/
def buildPassthroughCmd (outputDevice : String) : List String :=
  ["sh", "-c",
   "arecord -D plughw:3,0 -f S16_LE -r 48000 -c 2 | " ++
   "sox -t wav - -t wav - highpass 250 lowpass 4800 compand 0.08,0.2 -28,-18 6 gain -3 remix 1,2 1,2 | " ++
   "aplay -D " ++ outputDevice]

/-! ## The Arbiter model

State shared between the Arbiter loop (`fx_thread`), the command
dispatcher, the device-change path and the playback path: the sweep
`running` flag, the FX configuration, the `_fx_needs_restart` dirty
flag, the current output device, and the two continuous-pipeline
process handles (`_fx_proc`, `_passthrough_proc`), each carrying the
argv it was started with. -/

structure AState where
  running : Bool
  fx : FxConfig
  fxNeedsRestart : Bool
  currentDevice : String
  fxProc : Option (List String)
  ptProc : Option (List String)
  deriving Repr, DecidableEq

/-- Externally visible process-lifecycle actions performed by the
embedded operations, in program order.  A `start` action records the
argv handed to `subprocess.Popen`. -/
inductive AAction where
  | stopFx : AAction
  | stopPt : AAction
  | startFx : List String → AAction
  | startPt : List String → AAction
  | startPlayer : List String → AAction
  | waitPlayer : AAction
  deriving Repr, DecidableEq

/-- `_start_passthrough` (the caller has already checked the
`_passthrough_proc is not None` early-return guard): build the command
for the current device and spawn it; on spawn failure the handle stays
`None`. -/
def startPassthrough (s : AState) (spawnOk : Bool) : AState × List AAction :=
  let cmd := buildPassthroughCmd s.currentDevice
  if spawnOk then ({ s with ptProc := some cmd }, [AAction.startPt cmd])
  else (s, [AAction.startPt cmd])

/-- One iteration of the `fx_thread` loop body (the Arbiter tick,
lines 2976-3065).  `fxSpawnOk` / `ptSpawnOk` say whether a
`subprocess.Popen` performed during this tick succeeds and survives the
immediate-exit liveness check. -/
def tick (s : AState) (fxSpawnOk ptSpawnOk : Bool) : AState × List AAction :=
  -- snapshot under fx_lock; the dirty flag is consumed
  let enabled := s.fx.enabled
  let needsRestart := s.fxNeedsRestart
  let s := { s with fxNeedsRestart := false }
  if !s.running then
    -- stop both FX and passthrough when not in Spirit Box mode
    let (s, a1) := if s.fxProc.isSome then ({ s with fxProc := none }, [AAction.stopFx]) else (s, [])
    let (s, a2) := if s.ptProc.isSome then ({ s with ptProc := none }, [AAction.stopPt]) else (s, [])
    (s, a1 ++ a2)
  else if !enabled then
    -- FX disabled: stop FX if alive, start passthrough if absent
    let (s, a1) := if s.fxProc.isSome then ({ s with fxProc := none }, [AAction.stopFx]) else (s, [])
    let (s, a2) := if s.ptProc.isNone then startPassthrough s ptSpawnOk else (s, [])
    (s, a1 ++ a2)
  else
    -- FX enabled: stop passthrough if running
    let (s, a1) := if s.ptProc.isSome then ({ s with ptProc := none }, [AAction.stopPt]) else (s, [])
    -- always restart if FX process is not running or needs restart
    if s.fxProc.isNone || needsRestart then
      let (s, a2) := if s.fxProc.isSome then ({ s with fxProc := none }, [AAction.stopFx]) else (s, [])
      match buildSoxCmdFromFx s.fx s.currentDevice with
      | none => (s, a1 ++ a2)
      | some cmd =>
        if fxSpawnOk then ({ s with fxProc := some cmd }, a1 ++ a2 ++ [AAction.startFx cmd])
        else (s, a1 ++ a2 ++ [AAction.startFx cmd])
    else (s, a1)

/-- `set_audio_output_device(device)` (lines 1500-1525): record the new
device, flag the FX pipeline for restart, and if passthrough was
running, stop it and restart it directly (bound to the new device). -/
def setAudioOutputDevice (s : AState) (device : String) (ptSpawnOk : Bool) :
    AState × List AAction :=
  let s := { s with currentDevice := device, fxNeedsRestart := true }
  if s.ptProc.isSome then
    let s := { s with ptProc := none }
    let (s, a) := startPassthrough s ptSpawnOk
    (s, AAction.stopPt :: a)
  else (s, [])

/-- The process-relevant part of the `FM TEST` command branch
(lines 2894-2911): after a successful tune it calls
`_start_passthrough()` (whose only guard is its own
`_passthrough_proc is not None` early return) and schedules a
`_stop_passthrough` timer for 10 s later. -/
def fmTest (s : AState) (tuneOk ptSpawnOk : Bool) : AState × List AAction :=
  if tuneOk then
    if s.ptProc.isNone then startPassthrough s ptSpawnOk else (s, [])
  else (s, [])

/-- Outcome of the `subprocess.Popen(cmd)` in `play_sound`: either the
player spawns (and is then waited on), or `Popen` raises
(`FileNotFoundError` / other exception) and no player process exists. -/
inductive PlayOutcome where
  | ok : PlayOutcome
  | spawnFail : PlayOutcome
  deriving Repr, DecidableEq

/-- The process-lifecycle skeleton of `play_sound` (lines 993-1017),
entered once a playable file has been resolved: record whether the FX
process is alive, stop it if so, spawn the player and wait for it, and
in the `finally` block set `_fx_needs_restart` when FX had been
running.  The passthrough process is not consulted. -/
def playSound (s : AState) (playerCmd : List String) (outcome : PlayOutcome) :
    AState × List AAction :=
  let fxWasRunning := s.fxProc.isSome
  let (s, a1) := if fxWasRunning then ({ s with fxProc := none }, [AAction.stopFx]) else (s, [])
  let a2 := match outcome with
    | PlayOutcome.ok => [AAction.startPlayer playerCmd, AAction.waitPlayer]
    | PlayOutcome.spawnFail => []
  let s := if fxWasRunning then { s with fxNeedsRestart := true } else s
  (s, a1 ++ a2)

/-! ## Instant-by-instant pipeline aliveness

Replaying an action list over the pair (fx alive, passthrough alive)
lets us state mutual exclusion *at every instant* of an operation, not
just at its end.  A start action is counted as making its pipeline
alive even if the spawn later fails (the attempt still opens the
device). -/

/-- Effect of one action on the (fx alive, passthrough alive) pair. -/
def execAlive : Bool × Bool → AAction → Bool × Bool
  | (_, p), AAction.stopFx => (false, p)
  | (f, _), AAction.stopPt => (f, false)
  | (_, p), AAction.startFx _ => (true, p)
  | (f, _), AAction.startPt _ => (f, true)
  | (f, p), AAction.startPlayer _ => (f, p)
  | (f, p), AAction.waitPlayer => (f, p)

/-- `true` when no intermediate instant of the action sequence (started
from `init`) has both continuous pipelines alive. -/
def allInstantsExclusive (init : Bool × Bool) : List AAction → Bool
  | [] => !(init.1 && init.2)
  | a :: rest => !(init.1 && init.2) && allInstantsExclusive (execAlive init a) rest

/-- The (fx alive, passthrough alive) pair of a state. -/
def aliveOf (s : AState) : Bool × Bool := (s.fxProc.isSome, s.ptProc.isSome)

/-- At most one continuous pipeline is alive in state `s`. -/
def atMostOnePipeline (s : AState) : Bool := !(s.fxProc.isSome && s.ptProc.isSome)

/-- No pipeline-start action (fx, passthrough or player) in the list. -/
def noStarts (l : List AAction) : Bool :=
  l.all fun a => match a with
    | AAction.startFx _ => false
    | AAction.startPt _ => false
    | AAction.startPlayer _ => false
    | _ => true

/-! ## The sweep ramp (`sweep_thread`)

One outer-loop iteration of `sweep_thread` builds a fixed step sequence
from the direction read at ramp start (`range(880, 1080, 2)` going up,
`range(1080, 880, -2)` going down, in units of 0.1 MHz) and then walks
it, re-reading `state.running` and `state.direction` under the lock at
every step; `running = False` breaks out before tuning that step's
frequency, while the re-read direction is never used to alter the
current ramp. -/

/-- The step sequence (frequencies in 0.1 MHz units) chosen at ramp
start from the direction: Python `range(880, 1080, 2)` (up) or
`range(1080, 880, -2)` (down). -/
def rampSteps (direction : Int) : List Int :=
  if direction = 1 then (List.range 100).map (fun i => 880 + 2 * (i : Int))
  else (List.range 100).map (fun i => 1080 - 2 * (i : Int))

/-- Walk a ramp against the per-step snapshots `snap i = (running,
direction)` read under `state_lock` at iteration `i`.  Returns the
frequencies actually tuned: the step is tuned only when its snapshot's
`running` is true, and the first false snapshot aborts the ramp with no
further action.  The snapshot's direction component is read (as in the
source) but takes no part in the control flow. -/
def runRampFrom (snap : Nat → Bool × Int) : Nat → List Int → List Int
  | _, [] => []
  | i, st :: rest =>
    if (snap i).1 then st :: runRampFrom snap (i + 1) rest else []

def runRamp (steps : List Int) (snap : Nat → Bool × Int) : List Int :=
  runRampFrom snap 0 steps

/-! ## Overlapping one-shot playback (`play_sound` has no lock)

`play_sound` is called concurrently from the command dispatcher, the
REM-Pod trigger thread and the Music-Box trigger thread
(`threading.Thread(target=play_sound, ...)`).  Its body acquires no
lock around the player process: the steps below are its
process-relevant statements, and in the interleaving semantics every
step of either thread is always enabled. -/

/-- Shared state touched by two concurrent `play_sound` calls:
the FX process handle, the dirty flag, and the number of live player
processes. -/
structure PWorld where
  fxAlive : Bool
  needsRestart : Bool
  players : Nat
  deriving Repr, DecidableEq

/-- Per-thread state: program counter over `play_sound`'s body, plus
the thread-local `fx_was_running`. -/
structure PThread where
  pc : Nat
  fxWas : Bool
  deriving Repr, DecidableEq

/-- One step of a thread executing `play_sound`'s body:
pc 0: `fx_was_running = (_fx_proc is not None)`; if so `_stop_fx_proc()`;
pc 1: `proc = subprocess.Popen(cmd)` (a player process comes alive);
pc 2: `proc.wait()` (that player exits);
pc 3: `finally:` set `_fx_needs_restart` if `fx_was_running`.
No step acquires or waits on any lock. -/
def playStep (w : PWorld) (t : PThread) : PWorld × PThread :=
  match t.pc with
  | 0 => ({ w with fxAlive := false }, { pc := 1, fxWas := w.fxAlive })
  | 1 => ({ w with players := w.players + 1 }, { t with pc := 2 })
  | 2 => ({ w with players := w.players - 1 }, { t with pc := 3 })
  | 3 => (if t.fxWas then { w with needsRestart := true } else w, { t with pc := 4 })
  | _ => (w, t)

/-- Run two overlapping `play_sound` calls under a schedule: `true`
steps thread A, `false` steps thread B.  Every schedule is admissible
because no step blocks. -/
def runTwoPlays (sched : List Bool) (w : PWorld) (a b : PThread) :
    PWorld × PThread × PThread :=
  match sched with
  | [] => (w, a, b)
  | c :: rest =>
    if c then
      let (w', a') := playStep w a
      runTwoPlays rest w' a' b
    else
      let (w', b') := playStep w b
      runTwoPlays rest w' a b'

/-! ## Python string / parsing semantics used by `handle_command` -/

/-- Python `str.strip()` (whitespace from both ends), computed on the
character list. -/
def pyStrip (s : String) : String :=
  String.mk (((s.data.dropWhile Char.isWhitespace).reverse.dropWhile
    Char.isWhitespace).reverse)

/-- Worker for `pySplit`: the accumulator holds the current word,
reversed. -/
def splitWsAux : List Char → List Char → List String
  | [], acc => if acc = [] then [] else [String.mk acc.reverse]
  | c :: rest, acc =>
    if c.isWhitespace then
      if acc = [] then splitWsAux rest []
      else String.mk acc.reverse :: splitWsAux rest []
    else splitWsAux rest (c :: acc)

/-- Python `str.split()` with no argument: split on runs of whitespace,
discarding empty pieces. -/
def pySplit (s : String) : List String := splitWsAux s.data []

/-- Python `str.upper()` restricted to ASCII (all the protocol's
keywords are ASCII; non-ASCII letters can only change which branch of
the dispatcher is taken, never the shape of a response). -/
def pyUpper (s : String) : String := String.mk (s.data.map Char.toUpper)

/-- Python `str.lower()` restricted to ASCII. -/
def pyLower (s : String) : String := String.mk (s.data.map Char.toLower)

/-- Python `str.endswith(suf)`, computed on the character list. -/
def strTail (suf s : String) : Bool := suf.data.isSuffixOf s.data

/-- Python `int(s)`: optional surrounding whitespace, optional sign,
one or more decimal digits (underscored literals are not modeled). -/
def pyParseInt (s : String) : Option Int :=
  let t := pyStrip s
  let core := fun (digits : List Char) (sign : Int) =>
    if digits ≠ [] ∧ digits.all Char.isDigit then
      some (sign * (digits.foldl (fun acc c => 10 * acc + (c.toNat - 48 : Int)) 0))
    else none
  match t.data with
  | [] => none
  | c :: rest =>
    if c = '-' then core rest (-1)
    else if c = '+' then core rest 1
    else core (c :: rest) 1

/-- Python `float(s)` for plain decimal literals: optional sign,
digits with an optional fractional part (exponent / inf / nan forms
are not modeled).  Returns an exact rational. -/
def pyParseRat (s : String) : Option Rat :=
  let t := pyStrip s
  let digitsVal := fun (l : List Char) =>
    l.foldl (fun acc c => 10 * acc + (c.toNat - 48 : Int)) 0
  let core := fun (l : List Char) (sign : Int) =>
    match l.splitOn '.' with
    | [ip] =>
      if ip ≠ [] ∧ ip.all Char.isDigit then some ((sign * digitsVal ip : Int) : Rat)
      else none
    | [ip, fp] =>
      if (ip ≠ [] ∨ fp ≠ []) ∧ ip.all Char.isDigit ∧ fp.all Char.isDigit then
        some ((sign : Rat) * (((digitsVal ip : Int) : Rat) +
          ((digitsVal fp : Int) : Rat) / ((10 ^ fp.length : Int) : Rat)))
      else none
    | _ => none
  match t.data with
  | [] => none
  | c :: rest =>
    if c = '-' then core rest (-1)
    else if c = '+' then core rest 1
    else core (c :: rest) 1

/-- Decimal digits of `rem / den` (long division), stopping when the
remainder vanishes; `fuel` bounds the expansion (every value arising in
the system comes from a decimal literal, so division terminates well
inside the fuel). -/
def fracDigits : Nat → Nat → Nat → String
  | _, _, 0 => ""
  | rem, den, fuel + 1 =>
    if rem = 0 then ""
    else
      let r10 := rem * 10
      toString (r10 / den) ++ fracDigits (r10 % den) den fuel

/-- Python `str(float)` for the exact rationals our parser produces:
sign, integer part, a dot, and the (terminating) fractional digits,
with `.0` when the value is integral — matching `str(5.0) = "5.0"`,
`str(float("2.50")) = "2.5"`, etc. -/
def ratRepr (q : Rat) : String :=
  let sign := if q < 0 then "-" else ""
  let n := q.num.natAbs
  let d := q.den
  let ip := n / d
  let digits := fracDigits (n % d) d 20
  sign ++ toString ip ++ "." ++ (if digits = "" then "0" else digits)

/-! ## A `json.dumps` printer

Python's `json.dumps` with default separators: objects as
`\x7b"k": v, ...\x7d`, arrays as `[a, b]`, `True`/`False`/`None` as
`true`/`false`/`null`. -/

inductive Json where
  | null : Json
  | bool : Bool → Json
  | num : Int → Json
  | flt : Rat → Json
  | str : String → Json
  | arr : List Json → Json
  | obj : List (String × Json) → Json
  deriving Repr

/-- Escape a string for JSON output (quote, backslash and the control
characters that can occur in our values). -/
def jsonEscape (s : String) : String :=
  s.data.foldl (fun acc c =>
    if c = '"' then acc ++ "\\\""
    else if c = '\\' then acc ++ "\\\\"
    else if c = '\n' then acc ++ "\\n"
    else if c = '\t' then acc ++ "\\t"
    else if c = '\r' then acc ++ "\\r"
    else acc.push c) ""

mutual

def Json.dump : Json → String
  | Json.null => "null"
  | Json.bool true => "true"
  | Json.bool false => "false"
  | Json.num n => toString n
  | Json.flt q => ratRepr q
  | Json.str s => "\"" ++ jsonEscape s ++ "\""
  | Json.arr xs => "[" ++ Json.dumpList xs ++ "]"
  | Json.obj fs => "\x7b" ++ Json.dumpObj fs ++ "\x7d"

def Json.dumpList : List Json → String
  | [] => ""
  | [x] => Json.dump x
  | x :: xs => Json.dump x ++ ", " ++ Json.dumpList xs

def Json.dumpObj : List (String × Json) → String
  | [] => ""
  | [(k, v)] => "\"" ++ jsonEscape k ++ "\": " ++ Json.dump v
  | (k, v) :: fs => "\"" ++ jsonEscape k ++ "\": " ++ Json.dump v ++ ", " ++ Json.dumpObj fs

end

/-! ## Shared runtime records (the Python state classes) -/

/-- Sweep speeds in ms (`SWEEP_SPEEDS_MS`). -/
def sweepSpeedsMs : List Int := [50, 100, 150, 200, 250, 300, 350]

/-- `SWEEP_SPEEDS_MS[i]` (the index is kept in range by every writer). -/
def speedAt (i : Nat) : Int := sweepSpeedsMs.getD i 0

/-- `closest_speed_index(ms)`: index of the preset with the smallest
absolute difference, earliest on ties (strict `<` update). -/
def closestSpeedIndex (ms : Int) : Nat :=
  ((List.range sweepSpeedsMs.length).foldl
    (fun (acc : Nat × Int) i =>
      let diff := ((ms - speedAt i).natAbs : Int)
      if diff < acc.2 then (i, diff) else acc)
    (0, 999999)).1

/-- `OracleBoxState`: sweep speed/direction/running plus LED modes and
the startup sound (defaults from `__init__`). -/
structure OBState where
  speed_index : Nat := 2
  direction : Int := 1
  running : Bool := false
  sweep_led_mode : String := "on"
  box_led_mode : String := "flicker"
  startup_sound : String := ""
  deriving Repr, DecidableEq

/-- The record persisted by `save_to_config` (`to_config_dict`:
everything except `running`). -/
structure OBStateCfg where
  speed_index : Nat := 2
  direction : Int := 1
  sweep_led_mode : String := "on"
  box_led_mode : String := "flicker"
  startup_sound : String := ""
  deriving Repr, DecidableEq

/-- `LedConfig`: persisted LED brightness/animation-speed settings. -/
structure LedCfg where
  sweep_min_brightness : Int := 0
  sweep_max_brightness : Int := 255
  sweep_speed : Int := 3
  box_min_brightness : Int := 0
  box_max_brightness : Int := 255
  box_speed : Int := 3
  deriving Repr, DecidableEq

/-- `AudioConfig`: output device routing state. -/
structure AudioCfg where
  default_device : String := "plughw:3,0"
  bt_device : Option String := none
  bt_connected : Bool := false
  current_device : String := "plughw:3,0"
  deriving Repr, DecidableEq

/-- `RemPodState`. -/
structure RemPodState where
  armed : Bool := false
  sensitivity : Int := 3
  alert_sound : String := "default.wav"
  temp_alerts : Bool := true
  simulating : Bool := false
  simulation_interval : Rat := 5
  deriving Repr, DecidableEq

/-- `MusicBoxState`. -/
structure MusicBoxState where
  active : Bool := false
  calibrated : Bool := false
  trigger_sound : String := "default.wav"
  detection_range : Rat := 5
  simulating : Bool := false
  simulation_interval : Rat := 10
  deriving Repr, DecidableEq

/-- One entry of the `FX_PRESETS` table. -/
structure FxPreset where
  category : String
  description : String
  bp_low : Int
  bp_high : Int
  reverb_room : Int
  reverb_damping : Int
  reverb_wet : Int
  reverb_dry : Int
  contrast_amount : Int
  pre_gain_db : Int
  post_gain_db : Int
  deriving Repr, DecidableEq

/-- The built-in `FX_PRESETS` dictionary, in insertion order. -/
def fxPresetsInit : List (String × FxPreset) :=
  [("SB7_CLASSIC",
    ⟨"SB7", "Balanced portal mode - the baseline that works great",
     500, 2600, 35, 40, 100, 55, 20, -6, 8⟩),
   ("SB7_CRYSTAL_CLEAR",
    ⟨"SB7", "Maximum voice clarity - tight vocal range, minimal noise",
     550, 2400, 32, 42, 95, 60, 17, -7, 7⟩),
   ("SB7_DEEP_VOICE",
    ⟨"SB7", "Enhanced low frequencies for deeper male voices",
     400, 2200, 33, 38, 98, 57, 19, -6, 9⟩),
   ("SB7_HIGH_VOICE",
    ⟨"SB7", "Enhanced high frequencies for lighter female/child voices",
     600, 2800, 34, 41, 97, 58, 18, -6, 8⟩),
   ("SB7_DYNAMIC_GATE",
    ⟨"SB7", "Advanced multi-stage processing with dynamic compression gate",
     450, 2400, 20, 35, 45, 40, 12, -6, 8⟩),
   ("SB7_CLARITY_MAX",
    ⟨"SB7", "Minimal static, maximal intelligibility - EVP-safe sweet spot",
     420, 2850, 22, 38, 65, 55, 17, -5, 10⟩),
   ("SB7_STATIC_KILLER",
    ⟨"SB7", "Aggressive static reduction with enhanced voice punch",
     480, 2700, 22, 38, 70, 50, 19, -5, 10⟩),
   ("FM_RAW_PORTAL",
    ⟨"FM", "Clean voice isolation - default Ghost Portal style preset",
     500, 2600, 30, 45, 85, 65, 18, -6, 8⟩),
   ("FM_CRYSTAL_CLEAR",
    ⟨"FM", "Maximum voice clarity - tight vocal range, minimal noise",
     550, 2400, 28, 48, 80, 70, 15, -7, 7⟩),
   ("FM_DEEP_VOICE",
    ⟨"FM", "Enhanced low frequencies for deeper male voices",
     400, 2200, 32, 42, 90, 60, 16, -6, 9⟩),
   ("FM_HIGH_VOICE",
    ⟨"FM", "Enhanced high frequencies for lighter female/child voices",
     600, 2800, 30, 46, 85, 65, 17, -6, 8⟩),
   ("FM_DYNAMIC_GATE",
    ⟨"FM", "Advanced multi-stage processing with dynamic compression gate",
     450, 2400, 20, 35, 45, 40, 12, -6, 8⟩),
   ("FM_CLARITY_MAX",
    ⟨"FM", "Definitive high-clarity FM filter - balanced intelligibility",
     460, 2750, 26, 40, 58, 52, 15, -6, 11⟩),
   ("FM_CLARITY_VOICE_ONLY",
    ⟨"FM", "Super clean, maximum noise reduction - loud voices, minimal static",
     520, 2550, 18, 40, 48, 55, 14, -7, 12⟩),
   ("FM_EXTREME_VOICE_ONLY",
    ⟨"FM", "Nuclear static removal - 80-85% noise cut, maximum voice boost",
     600, 2400, 10, 45, 35, 65, 20, -9, 12⟩)]

/-- `FxConfig.apply_preset` field copy. -/
def applyPresetFields (fx : FxConfig) (name : String) (p : FxPreset) : FxConfig :=
  { fx with
    bp_low := p.bp_low, bp_high := p.bp_high,
    reverb_room := p.reverb_room, reverb_damping := p.reverb_damping,
    reverb_wet := p.reverb_wet, reverb_dry := p.reverb_dry,
    contrast_amount := p.contrast_amount,
    pre_gain_db := p.pre_gain_db, post_gain_db := p.post_gain_db,
    preset := name }

/-- `FX_PRESETS[name] = preset` on an insertion-ordered association
list: replace in place when the key exists, else append. -/
def presetsInsert (ps : List (String × FxPreset)) (name : String) (p : FxPreset) :
    List (String × FxPreset) :=
  if ps.any (fun kv => kv.1 = name) then
    ps.map (fun kv => if kv.1 = name then (name, p) else kv)
  else ps ++ [(name, p)]

/-! ## External-world oracles

Results of the subprocess / filesystem calls `handle_command` makes:
ALSA mixer state, bluetoothctl results, file existence, directory
listings, spawn success, and whether the config-file writes inside the
`save()` methods succeed.  The environment is fixed for the duration of
one command. -/

/-- Parsed `get_mixer_status` result (the non-error shape). -/
structure MixerStatus where
  speaker_volume : Int := 0
  speaker_switch : Bool := false
  mic_playback_volume : Int := 0
  mic_playback_switch : Bool := false
  mic_capture_volume : Int := 0
  mic_capture_switch : Bool := false
  auto_gain : Bool := false
  deriving Repr, DecidableEq

/-- One device from `list_bt_audio_devices`. -/
structure BtDev where
  mac : String
  name : String
  connected : Bool
  deriving Repr, DecidableEq

structure Env where
  baseDir : String := "/opt/oraclebox"
  /-- does the `open(...).write` inside `LedConfig.save` succeed -/
  writeLedOk : Bool := true
  /-- does the write inside `OracleBoxState.save_to_config` succeed -/
  writeStateOk : Bool := true
  /-- does the write inside `FxConfig.save` succeed -/
  writeFxOk : Bool := true
  /-- `get_mixer_status()`: parsed state, or the error-dict message -/
  mixer : Except String MixerStatus := Except.ok {}
  speakerVolOk : Bool := true
  micVolOk : Bool := true
  autoGainOk : Bool := true
  muteOk : Bool := true
  restartOk : Bool := true
  shutdownOk : Bool := true
  fileExists : String → Bool := fun _ => false
  /-- `list_sounds(folder)` -/
  listSounds : Option String → List String := fun _ => []
  /-- outcome of the player `Popen` in `play_sound` -/
  playerSpawn : PlayOutcome := PlayOutcome.ok
  /-- `list_bt_audio_devices()` (also `discover_bt_devices()`) -/
  btList : Except String (List BtDev) := Except.error "bluetoothctl not available"
  btPairOk : Bool := false
  btConnectOk : Bool := false
  /-- `get_bt_audio_sink()` -/
  btSink : Option String := none
  /-- passthrough `Popen` success (used by `_start_passthrough`) -/
  ptSpawnOk : Bool := true
  /-- `tea5767_write(freq)` result -/
  tuneOk : Bool := false
  /-- `REMPOD SOUNDS` directory listing (`none` = an exception) -/
  rempodSounds : Option (List String) := some []
  /-- `MUSICBOX SOUNDS` directory listing (`none` = an exception) -/
  musicboxSounds : Option (List String) := some []
  /-- `MIC STATUS`: error message, or the optional regex-matched gain -/
  micStatus : Except String (Option String) := Except.ok none

/-- The world acted on by one `handle_command` call: every mutable
module-level record of the source, plus the on-disk copies written by
the `save` methods, the FX dirty flag and the two continuous-pipeline
process handles. -/
structure World where
  state : OBState := {}
  stateDisk : OBStateCfg := {}
  led : LedCfg := {}
  ledDisk : LedCfg := {}
  fx : FxConfig := {}
  fxDisk : FxConfig := {}
  presets : List (String × FxPreset) := fxPresetsInit
  audioCfg : AudioCfg := {}
  rempod : RemPodState := {}
  musicbox : MusicBoxState := {}
  fxNeedsRestart : Bool := false
  fxProc : Option (List String) := none
  ptProc : Option (List String) := none

/-! ## Persistence and process side effects on the `World` -/

/-- `os.path.join` for our path strings. -/
def joinPath (a b : String) : String := a ++ "/" ++ b

def soundsDir (env : Env) : String := joinPath env.baseDir "sounds"

def announcementsDir (env : Env) : String := joinPath (soundsDir env) "Announcements"

def startupSoundsDir (env : Env) : String := joinPath (soundsDir env) "Startup"

def rempodSoundsDir (env : Env) : String := joinPath (soundsDir env) "RemPod"

def musicboxSoundsDir (env : Env) : String := joinPath (soundsDir env) "MusicBox"

/-- `OracleBoxState.save_to_config`: writes `to_config_dict` (which
never includes `running`); every exception is caught inside the
method, so it never raises and callers cannot observe failure. -/
def saveToConfig (env : Env) (w : World) : World :=
  if env.writeStateOk then
    { w with stateDisk :=
      ⟨w.state.speed_index, w.state.direction, w.state.sweep_led_mode,
       w.state.box_led_mode, w.state.startup_sound⟩ }
  else w

/-- `LedConfig.save`.  The second component records whether an
exception escaped the call; it is always `false`, because the method
catches every exception internally and only prints — a failed file
write leaves the old contents on disk and is invisible to the caller. -/
def ledSave (env : Env) (w : World) : World × Bool :=
  (if env.writeLedOk then { w with ledDisk := w.led } else w, false)

/-- `FxConfig.save` (same catch-all shape as `LedConfig.save`). -/
def fxSave (env : Env) (w : World) : World :=
  if env.writeFxOk then { w with fxDisk := w.fx } else w

/-- Extension (with dot) of the final path component, as
`os.path.splitext` computes it (a lone leading dot is no extension). -/
def pathExt (path : String) : String :=
  let base := (path.data.splitOn '/').getLastD path.data
  match base.splitOn '.' with
  | [] => ""
  | [_] => ""
  | [] :: [_] => ""
  | parts => String.mk ('.' :: parts.getLastD [])

/-- `_player_command_for(path)`: mp3 via mpg123, wav via aplay. -/
def playerCommandFor (path : String) : Option (List String × String) :=
  let ext := pathExt (pyLower path)
  if ext = ".mp3" then some (["mpg123", "-q", path], "mpg123")
  else if ext = ".wav" then some (["aplay", "-q", path], "aplay")
  else none

/-- `play_sound`'s search order: Announcements, Startup, RemPod,
MusicBox, then the sounds root. -/
def resolveSoundPath (env : Env) (name : String) : Option String :=
  let p1 := joinPath (announcementsDir env) name
  if env.fileExists p1 then some p1 else
  let p2 := joinPath (startupSoundsDir env) name
  if env.fileExists p2 then some p2 else
  let p3 := joinPath (rempodSoundsDir env) name
  if env.fileExists p3 then some p3 else
  let p4 := joinPath (musicboxSoundsDir env) name
  if env.fileExists p4 then some p4 else
  let p5 := joinPath (soundsDir env) name
  if env.fileExists p5 then some p5 else none

/-- `play_sound(name)` acting on the `World` (the `SOUND PLAY` path):
resolve the file, and if it is playable, record whether the FX process
is alive, stop it if so, run the player synchronously, and in the
`finally` block set `_fx_needs_restart` when FX had been running.  The
passthrough process is never consulted. -/
def worldPlaySound (env : Env) (w : World) (nameArg : Option String) : World :=
  let name := match nameArg with
    | none => w.state.startup_sound
    | some n => n
  if name = "" then w
  else
    match resolveSoundPath env name with
    | none => w
    | some p =>
      match playerCommandFor p with
      | none => w
      | some _ =>
        let fxWas := w.fxProc.isSome
        let w := if fxWas then { w with fxProc := none } else w
        -- Popen + wait (or Popen raising): either way the finally runs
        if fxWas then { w with fxNeedsRestart := true } else w

/-- `set_audio_output_device(device)` on the `World` (same logic as
`setAudioOutputDevice` on the Arbiter state). -/
def worldSetAudioOutputDevice (env : Env) (w : World) (device : String) : World :=
  let w := { w with
    audioCfg := { w.audioCfg with current_device := device },
    fxNeedsRestart := true }
  if w.ptProc.isSome then
    let w := { w with ptProc := none }
    let cmd := buildPassthroughCmd w.audioCfg.current_device
    if env.ptSpawnOk then { w with ptProc := some cmd } else w
  else w

/-- `_start_passthrough()` on the `World` (early return when a
passthrough process already exists). -/
def worldStartPassthrough (env : Env) (w : World) : World :=
  if w.ptProc.isSome then w
  else
    let cmd := buildPassthroughCmd w.audioCfg.current_device
    if env.ptSpawnOk then { w with ptProc := some cmd } else w

/-! ## `to_dict` serializations (insertion order of the Python dicts) -/

def OBState.toDictFields (st : OBState) : List (String × Json) :=
  [("speed_ms", Json.num (speedAt st.speed_index)),
   ("direction", Json.str (if st.direction = 1 then "up" else "down")),
   ("running", Json.bool st.running),
   ("sweep_led_mode", Json.str st.sweep_led_mode),
   ("box_led_mode", Json.str st.box_led_mode),
   ("startup_sound", Json.str st.startup_sound)]

def LedCfg.toDictFields (lc : LedCfg) : List (String × Json) :=
  [("sweep_min_brightness", Json.num lc.sweep_min_brightness),
   ("sweep_max_brightness", Json.num lc.sweep_max_brightness),
   ("sweep_speed", Json.num lc.sweep_speed),
   ("box_min_brightness", Json.num lc.box_min_brightness),
   ("box_max_brightness", Json.num lc.box_max_brightness),
   ("box_speed", Json.num lc.box_speed)]

def FxConfig.toDictFields (fx : FxConfig) : List (String × Json) :=
  [("enabled", Json.bool fx.enabled),
   ("preset", Json.str fx.preset),
   ("bp_low", Json.num fx.bp_low),
   ("bp_high", Json.num fx.bp_high),
   ("reverb_room", Json.num fx.reverb_room),
   ("reverb_damping", Json.num fx.reverb_damping),
   ("reverb_wet", Json.num fx.reverb_wet),
   ("reverb_dry", Json.num fx.reverb_dry),
   ("contrast_amount", Json.num fx.contrast_amount),
   ("pre_gain_db", Json.num fx.pre_gain_db),
   ("post_gain_db", Json.num fx.post_gain_db)]

def AudioCfg.toDictFields (ac : AudioCfg) : List (String × Json) :=
  [("default_device", Json.str ac.default_device),
   ("bt_device", match ac.bt_device with
     | some d => Json.str d
     | none => Json.null),
   ("bt_connected", Json.bool ac.bt_connected),
   ("current_device", Json.str ac.current_device)]

def RemPodState.toDictFields (r : RemPodState) : List (String × Json) :=
  [("armed", Json.bool r.armed),
   ("sensitivity", Json.num r.sensitivity),
   ("alert_sound", Json.str r.alert_sound),
   ("temp_alerts", Json.bool r.temp_alerts),
   ("simulating", Json.bool r.simulating),
   ("simulation_interval", Json.flt r.simulation_interval)]

def MusicBoxState.toDictFields (m : MusicBoxState) : List (String × Json) :=
  [("active", Json.bool m.active),
   ("calibrated", Json.bool m.calibrated),
   ("trigger_sound", Json.str m.trigger_sound),
   ("detection_range", Json.flt m.detection_range),
   ("simulating", Json.bool m.simulating),
   ("simulation_interval", Json.flt m.simulation_interval)]

def FxPreset.toDictFields (p : FxPreset) : List (String × Json) :=
  [("category", Json.str p.category),
   ("description", Json.str p.description),
   ("bp_low", Json.num p.bp_low),
   ("bp_high", Json.num p.bp_high),
   ("reverb_room", Json.num p.reverb_room),
   ("reverb_damping", Json.num p.reverb_damping),
   ("reverb_wet", Json.num p.reverb_wet),
   ("reverb_dry", Json.num p.reverb_dry),
   ("contrast_amount", Json.num p.contrast_amount),
   ("pre_gain_db", Json.num p.pre_gain_db),
   ("post_gain_db", Json.num p.post_gain_db)]

/-- JSON shape of `get_mixer_status()`'s return value. -/
def mixerJson : Except String MixerStatus → Json
  | Except.error e => Json.obj [("error", Json.str e)]
  | Except.ok m =>
    Json.obj
      [("speaker_volume", Json.num m.speaker_volume),
       ("speaker_switch", Json.bool m.speaker_switch),
       ("mic_playback_volume", Json.num m.mic_playback_volume),
       ("mic_playback_switch", Json.bool m.mic_playback_switch),
       ("mic_capture_volume", Json.num m.mic_capture_volume),
       ("mic_capture_switch", Json.bool m.mic_capture_switch),
       ("auto_gain", Json.bool m.auto_gain)]

/-- JSON shape of `list_bt_audio_devices()`'s return value. -/
def btJson : Except String (List BtDev) → Json
  | Except.error e => Json.obj [("error", Json.str e)]
  | Except.ok devs =>
    Json.obj [("devices", Json.arr (devs.map fun d =>
      Json.obj [("mac", Json.str d.mac), ("name", Json.str d.name),
                ("connected", Json.bool d.connected)]))]

/-! ## `handle_command` — one definition per top-level command word -/

def cmdStatus (env : Env) (w : World) : String × World :=
  let speakerSwitch := match env.mixer with
    | Except.ok m => m.speaker_switch
    | Except.error _ => false
  let fields := w.state.toDictFields ++ w.led.toDictFields
    ++ [("muted", Json.bool (!speakerSwitch))]
  ("OK " ++ Json.dump (Json.obj fields), w)

def cmdPing (w : World) : String × World :=
  let payload := Json.obj
    [("ok", Json.bool true),
     ("speed_ms", Json.num (speedAt w.state.speed_index)),
     ("direction", Json.str (if w.state.direction = 1 then "up" else "down")),
     ("running", Json.bool w.state.running),
     ("sweep_led_mode", Json.str w.state.sweep_led_mode),
     ("box_led_mode", Json.str w.state.box_led_mode),
     ("startup_sound", Json.str w.state.startup_sound)]
  ("OK " ++ Json.dump payload, w)

def cmdRestart (env : Env) (w : World) : String × World :=
  if env.restartOk then ("OK RESTART", w) else ("ERR RESTART failed", w)

def cmdShutdown (env : Env) (w : World) : String × World :=
  if env.shutdownOk then ("OK SHUTDOWN", w) else ("ERR SHUTDOWN failed", w)

def cmdSpeed (env : Env) (w : World) (args : List String) : String × World :=
  match args with
  | [a] =>
    match pyParseInt a with
    | none => ("ERR SPEED bad value", w)
    | some ms =>
      let w := { w with state := { w.state with speed_index := closestSpeedIndex ms } }
      let w := saveToConfig env w
      ("OK SPEED " ++ toString (speedAt w.state.speed_index), w)
  | _ => ("ERR SPEED needs ms", w)

def cmdFaster (env : Env) (w : World) : String × World :=
  let w :=
    if w.state.speed_index > 0 then
      saveToConfig env { w with state := { w.state with speed_index := w.state.speed_index - 1 } }
    else w
  ("OK SPEED " ++ toString (speedAt w.state.speed_index), w)

def cmdSlower (env : Env) (w : World) : String × World :=
  let w :=
    if w.state.speed_index < sweepSpeedsMs.length - 1 then
      saveToConfig env { w with state := { w.state with speed_index := w.state.speed_index + 1 } }
    else w
  ("OK SPEED " ++ toString (speedAt w.state.speed_index), w)

/-- Shared tail of the three valid `DIR` subcommands: store the new
direction, save, and echo it. -/
def cmdDirSet (env : Env) (w : World) (dir : Int) : String × World :=
  let w := saveToConfig env { w with state := { w.state with direction := dir } }
  ("OK DIR " ++ (if w.state.direction = 1 then "UP" else "DOWN"), w)

def cmdDir (env : Env) (w : World) (args : List String) : String × World :=
  match args with
  | [] => ("ERR DIR needs UP/DOWN/TOGGLE", w)
  | a :: _ =>
    match pyUpper a with
    | "UP" => cmdDirSet env w 1
    | "DOWN" => cmdDirSet env w (-1)
    | "TOGGLE" => cmdDirSet env w (w.state.direction * (-1))
    | _ => ("ERR DIR bad value", w)

def cmdStart (env : Env) (w : World) : String × World :=
  let w := saveToConfig env { w with state := { w.state with running := true } }
  ("OK START", w)

def cmdStop (env : Env) (w : World) : String × World :=
  let w := saveToConfig env { w with state := { w.state with running := false } }
  ("OK STOP", w)

/-- Shared shape of one `SWEEP_CFG` / `BOX_CFG` field mutation: apply
the new value, try `led_config.save()`, and roll back returning an
error if the save *raised* — which it never does (see `ledSave`). -/
def ledCfgApply (env : Env) (w : World) (setVal rollback : LedCfg → LedCfg) :
    String × World :=
  let w1 := { w with led := setVal w.led }
  let (w2, raised) := ledSave env w1
  if raised then ("ERR could not save config", { w2 with led := rollback w2.led })
  else ("OK", w2)

def cmdSweepCfg (env : Env) (w : World) (args : List String) : String × World :=
  match args with
  | [f, v] =>
    match pyParseInt v with
    | none => ("ERR invalid value", w)
    | some value =>
      match pyUpper f with
      | "MIN" =>
        if ¬(0 ≤ value ∧ value ≤ 255) then ("ERR invalid value", w)
        else if value > w.led.sweep_max_brightness then ("ERR min > max", w)
        else
          let old := w.led.sweep_min_brightness
          ledCfgApply env w (fun l => { l with sweep_min_brightness := value })
            (fun l => { l with sweep_min_brightness := old })
      | "MAX" =>
        if ¬(0 ≤ value ∧ value ≤ 255) then ("ERR invalid value", w)
        else if value < w.led.sweep_min_brightness then ("ERR min > max", w)
        else
          let old := w.led.sweep_max_brightness
          ledCfgApply env w (fun l => { l with sweep_max_brightness := value })
            (fun l => { l with sweep_max_brightness := old })
      | "SPEED" =>
        if ¬(1 ≤ value ∧ value ≤ 10) then ("ERR invalid value", w)
        else
          let old := w.led.sweep_speed
          ledCfgApply env w (fun l => { l with sweep_speed := value })
            (fun l => { l with sweep_speed := old })
      | _ => ("ERR unknown field", w)
  | _ => ("ERR SWEEP_CFG needs field and value", w)

def cmdBoxCfg (env : Env) (w : World) (args : List String) : String × World :=
  match args with
  | [f, v] =>
    match pyParseInt v with
    | none => ("ERR invalid value", w)
    | some value =>
      match pyUpper f with
      | "MIN" =>
        if ¬(0 ≤ value ∧ value ≤ 255) then ("ERR invalid value", w)
        else if value > w.led.box_max_brightness then ("ERR min > max", w)
        else
          let old := w.led.box_min_brightness
          ledCfgApply env w (fun l => { l with box_min_brightness := value })
            (fun l => { l with box_min_brightness := old })
      | "MAX" =>
        if ¬(0 ≤ value ∧ value ≤ 255) then ("ERR invalid value", w)
        else if value < w.led.box_min_brightness then ("ERR min > max", w)
        else
          let old := w.led.box_max_brightness
          ledCfgApply env w (fun l => { l with box_max_brightness := value })
            (fun l => { l with box_max_brightness := old })
      | "SPEED" =>
        if ¬(1 ≤ value ∧ value ≤ 10) then ("ERR invalid value", w)
        else
          let old := w.led.box_speed
          ledCfgApply env w (fun l => { l with box_speed := value })
            (fun l => { l with box_speed := old })
      | _ => ("ERR unknown field", w)
  | _ => ("ERR BOX_CFG needs field and value", w)

def validLedModes : List String :=
  ["on", "off", "breath", "breath_fast", "heartbeat", "strobe",
   "flicker", "random_burst", "sweep"]

def cmdLed (env : Env) (w : World) (args : List String) : String × World :=
  match args with
  | target :: mode :: _ =>
    let mode := pyLower mode
    if ¬(mode ∈ validLedModes) then ("ERR LED mode", w)
    else
      match pyUpper target with
      | "SWEEP" =>
        let w := saveToConfig env { w with state := { w.state with sweep_led_mode := mode } }
        ("OK LED SWEEP " ++ mode, w)
      | "BOX" =>
        let w := saveToConfig env { w with state := { w.state with box_led_mode := mode } }
        ("OK LED BOX " ++ mode, w)
      | "ALL" =>
        if mode = "off" then
          let w := saveToConfig env
            { w with state := { w.state with sweep_led_mode := "off", box_led_mode := "off" } }
          ("OK LED ALL OFF", w)
        else ("ERR LED unknown target", w)
      | _ => ("ERR LED unknown target", w)
  | _ => ("ERR LED needs target and mode", w)

def cmdSound (env : Env) (w : World) (args : List String) : String × World :=
  match args with
  | [] => ("ERR SOUND needs subcommand", w)
  | a :: rest =>
    match pyUpper a with
    | "STATUS" =>
      let current := w.state.startup_sound
      let ex := current ≠ "" ∧ env.fileExists (joinPath (soundsDir env) current) = true
      let payload := Json.obj
        [("startup_sound", Json.str current),
         ("startup_exists", Json.bool (decide ex))]
      ("OK SOUND STATUS " ++ Json.dump payload, w)
    | "LIST" =>
      let folder := rest.head?
      ("OK SOUND LIST " ++ Json.dump (Json.arr ((env.listSounds folder).map Json.str)), w)
    | "PLAY" =>
      ("OK SOUND PLAY", worldPlaySound env w rest.head?)
    | "SET" =>
      match rest with
      | [] => ("ERR SOUND SET needs filename", w)
      | _ =>
        let name := String.intercalate " " rest
        if env.fileExists (joinPath (soundsDir env) name) then
          let w := saveToConfig env { w with state := { w.state with startup_sound := name } }
          ("OK SOUND SET " ++ name, w)
        else ("ERR SOUND SET not found", w)
    | "CLEAR" =>
      let w := saveToConfig env { w with state := { w.state with startup_sound := "" } }
      ("OK SOUND CLEAR", w)
    | _ => ("ERR SOUND unknown subcommand", w)

/-- Tail of every successful `FX SET`: mark the preset `CUSTOM`, save,
flag the restart, and echo the (uppercased) parameter and value. -/
def finishFxSet (env : Env) (w : World) (fx : FxConfig) (param : String) (value : Int) :
    String × World :=
  let w := fxSave env { w with fx := { fx with preset := "CUSTOM" } }
  ("OK FX SET " ++ param ++ " " ++ toString value, { w with fxNeedsRestart := true })

/-- The `FX SET <param> <value>` branch: per-parameter range checks,
with the 200 Hz band-gap auto-adjustment for `BP_LOW` / `BP_HIGH`. -/
def fxSet (env : Env) (w : World) (param : String) (value : Int) : String × World :=
  match param with
  | "BP_LOW" =>
    if ¬(100 ≤ value ∧ value ≤ 2000) then ("ERR BP_LOW range 100-2000", w)
    else
      let fx := w.fx
      let fx := if value + 200 > fx.bp_high then { fx with bp_high := min 5000 (value + 200) } else fx
      finishFxSet env w { fx with bp_low := value } param value
  | "BP_HIGH" =>
    if ¬(300 ≤ value ∧ value ≤ 5000) then ("ERR BP_HIGH range 300-5000", w)
    else
      let fx := w.fx
      let fx := if value - 200 < fx.bp_low then { fx with bp_low := max 100 (value - 200) } else fx
      finishFxSet env w { fx with bp_high := value } param value
  | "REVERB" =>
    if ¬(0 ≤ value ∧ value ≤ 100) then ("ERR REVERB range 0-100", w)
    else finishFxSet env w { w.fx with reverb_room := value } param value
  | "REVERB_DAMP" =>
    if ¬(0 ≤ value ∧ value ≤ 100) then ("ERR REVERB_DAMP range 0-100", w)
    else finishFxSet env w { w.fx with reverb_damping := value } param value
  | "REVERB_WET" =>
    if ¬(0 ≤ value ∧ value ≤ 100) then ("ERR REVERB_WET range 0-100", w)
    else finishFxSet env w { w.fx with reverb_wet := value } param value
  | "REVERB_DRY" =>
    if ¬(0 ≤ value ∧ value ≤ 100) then ("ERR REVERB_DRY range 0-100", w)
    else finishFxSet env w { w.fx with reverb_dry := value } param value
  | "CONTRAST" =>
    if ¬(0 ≤ value ∧ value ≤ 40) then ("ERR CONTRAST range 0-40", w)
    else finishFxSet env w { w.fx with contrast_amount := value } param value
  | "PRE_GAIN" =>
    if ¬(-24 ≤ value ∧ value ≤ 0) then ("ERR PRE_GAIN range -24 to 0", w)
    else finishFxSet env w { w.fx with pre_gain_db := value } param value
  | "POST_GAIN" =>
    if ¬(0 ≤ value ∧ value ≤ 18) then ("ERR POST_GAIN range 0-18", w)
    else finishFxSet env w { w.fx with post_gain_db := value } param value
  | _ => ("ERR FX SET unknown param", w)

/-- Python `int()` failure text, minus the quotes Python puts around
the offending literal (kept quoteless here; only the `ERR` head of the
response is load-bearing). -/
def intLiteralErr (v : String) : String :=
  "ERR FX PRESET SAVE invalid parameters: invalid literal for int() with base 10: " ++ v

/-- The `FX PRESET SAVE` branch (`args[2:]` is passed in).  The guard
only checks `len(args) < 8` yet the body reads `args[8]`, so an
eight-argument call dies with an `IndexError` that the
`except (ValueError, IndexError)` turns into an error response. -/
def fxPresetSave (env : Env) (w : World) (rest2 : List String) : String × World :=
  if rest2.length < 6 then
    ("ERR FX PRESET SAVE needs: name category bp_low bp_high contrast reverb gain", w)
  else
    match rest2 with
    | a2 :: a3 :: a4 :: a5 :: a6 :: a7 :: rest3 =>
      let preset_name := pyUpper a2
      let category := pyUpper a3
      match pyParseInt a4 with
      | none => (intLiteralErr a4, w)
      | some bp_low =>
      match pyParseInt a5 with
      | none => (intLiteralErr a5, w)
      | some bp_high =>
      match pyParseInt a6 with
      | none => (intLiteralErr a6, w)
      | some contrast =>
      match pyParseInt a7 with
      | none => (intLiteralErr a7, w)
      | some reverb =>
      match rest3.head? with
      | none => ("ERR FX PRESET SAVE invalid parameters: list index out of range", w)
      | some a8 =>
      match pyParseInt a8 with
      | none => (intLiteralErr a8, w)
      | some post_gain =>
        let newPreset : FxPreset :=
          ⟨category, "Custom " ++ category ++ " preset",
           bp_low, bp_high, reverb, 40, 100, 55, contrast, -6, post_gain⟩
        let w := { w with presets := presetsInsert w.presets preset_name newPreset }
        let w := match w.presets.find? (fun kv => kv.1 = preset_name) with
          | some kv => { w with fx := applyPresetFields w.fx preset_name kv.2 }
          | none => w
        let w := fxSave env w
        ("OK FX PRESET SAVED " ++ preset_name, { w with fxNeedsRestart := true })
    | _ => ("ERR FX PRESET SAVE needs: name category bp_low bp_high contrast reverb gain", w)

def cmdFx (env : Env) (w : World) (args : List String) : String × World :=
  match args with
  | [] => ("ERR FX needs subcommand", w)
  | a :: rest =>
    match pyUpper a with
    | "STATUS" =>
      ("OK FX STATUS " ++ Json.dump (Json.obj w.fx.toDictFields), w)
    | "ENABLE" =>
      let w := fxSave env { w with fx := { w.fx with enabled := true } }
      ("OK FX ENABLED", { w with fxNeedsRestart := true })
    | "DISABLE" =>
      let w := fxSave env { w with fx := { w.fx with enabled := false } }
      ("OK FX DISABLED", { w with fxNeedsRestart := true })
    | "SET" =>
      match rest with
      | [p, v] =>
        match pyParseInt v with
        | none => ("ERR FX SET bad value", w)
        | some value => fxSet env w (pyUpper p) value
      | _ => ("ERR FX SET needs param and value", w)
    | "PRESET" =>
      match rest with
      | [] => ("ERR FX PRESET needs subcommand", w)
      | p :: rest2 =>
        match pyUpper p with
        | "LIST" =>
          let items := w.presets.map fun kv =>
            Json.obj [("name", Json.str kv.1),
                      ("category", Json.str kv.2.category),
                      ("description", Json.str kv.2.description)]
          ("OK FX PRESET LIST " ++ Json.dump (Json.arr items), w)
        | "INFO" =>
          match rest2 with
          | [nm] =>
            let nameU := pyUpper nm
            match w.presets.find? (fun kv => kv.1 = nameU) with
            | none => ("ERR FX PRESET unknown", w)
            | some kv => ("OK FX PRESET INFO " ++ Json.dump (Json.obj kv.2.toDictFields), w)
          | _ => ("ERR FX PRESET INFO needs preset name", w)
        | "STATUS" =>
          ("OK FX PRESET STATUS " ++ Json.dump (Json.obj w.fx.toDictFields), w)
        | "SET" =>
          match rest2 with
          | [nm] =>
            let nameU := pyUpper nm
            match w.presets.find? (fun kv => kv.1 = nameU) with
            | none =>
              ("ERR FX PRESET unknown (available: "
                ++ String.intercalate ", " (w.presets.map Prod.fst) ++ ")", w)
            | some kv =>
              let w := fxSave env { w with fx := applyPresetFields w.fx nameU kv.2 }
              ("OK FX PRESET SET " ++ nameU, { w with fxNeedsRestart := true })
          | _ => ("ERR FX PRESET SET needs preset name", w)
        | "SAVE" => fxPresetSave env w rest2
        | _ => ("ERR FX PRESET unknown subcommand", w)
    | _ => ("ERR FX unknown subcommand", w)

def cmdMixer (env : Env) (w : World) (args : List String) : String × World :=
  match args with
  | [] => ("ERR MIXER needs subcommand", w)
  | a :: rest =>
    match pyUpper a with
    | "STATUS" =>
      ("OK MIXER STATUS " ++ Json.dump (mixerJson env.mixer), w)
    | "SET" =>
      match rest with
      | [f, v] =>
        match pyUpper f with
        | "SPEAKER_VOL" =>
          match pyParseInt v with
          | none => ("ERR invalid volume", w)
          | some level =>
            if ¬(0 ≤ level ∧ level ≤ 37) then ("ERR volume range 0-37", w)
            else (if env.speakerVolOk then "OK MIXER SET SPEAKER_VOL" else "ERR mixer set failed", w)
        | "MIC_VOL" =>
          match pyParseInt v with
          | none => ("ERR invalid volume", w)
          | some level =>
            if ¬(0 ≤ level ∧ level ≤ 35) then ("ERR volume range 0-35", w)
            else (if env.micVolOk then "OK MIXER SET MIC_VOL" else "ERR mixer set failed", w)
        | "AUTO_GAIN" =>
          match pyUpper v with
          | "ON" => (if env.autoGainOk then "OK MIXER SET AUTO_GAIN" else "ERR mixer set failed", w)
          | "OFF" => (if env.autoGainOk then "OK MIXER SET AUTO_GAIN" else "ERR mixer set failed", w)
          | _ => ("ERR AUTO_GAIN needs ON/OFF", w)
        | _ => ("ERR MIXER unknown field", w)
      | _ => ("ERR MIXER SET needs field and value", w)
    | _ => ("ERR MIXER unknown subcommand", w)

def cmdMute (env : Env) (w : World) (args : List String) : String × World :=
  match args with
  | [] => ("ERR MUTE needs ON/OFF", w)
  | a :: _ =>
    match pyUpper a with
    | "ON" => (if env.muteOk then "OK MUTE " ++ "ON" else "ERR mute set failed", w)
    | "OFF" => (if env.muteOk then "OK MUTE " ++ "OFF" else "ERR mute set failed", w)
    | _ => ("ERR MUTE needs ON/OFF", w)

def cmdBtAudio (env : Env) (w : World) (args : List String) : String × World :=
  match args with
  | [] => ("ERR BT_AUDIO needs subcommand", w)
  | a :: rest =>
    match pyUpper a with
    | "LIST" =>
      ("OK BT_AUDIO LIST " ++ Json.dump (btJson env.btList), w)
    | "DISCOVER" =>
      -- discover_bt_devices() just returns list_bt_audio_devices()
      ("OK BT_AUDIO DISCOVER " ++ Json.dump (btJson env.btList), w)
    | "PAIR" =>
      match rest.head? with
      | none => ("ERR BT_AUDIO PAIR needs MAC address", w)
      | some m =>
        let mac := pyUpper m
        if env.btPairOk then ("OK BT_AUDIO PAIRED " ++ mac, w)
        else ("ERR BT_AUDIO pairing failed", w)
    | "STATUS" =>
      ("OK BT_AUDIO STATUS " ++ Json.dump (Json.obj w.audioCfg.toDictFields), w)
    | "CONNECT" =>
      match rest.head? with
      | none => ("ERR BT_AUDIO CONNECT needs MAC address", w)
      | some m =>
        let mac := pyUpper m
        if ¬env.btConnectOk then ("ERR BT_AUDIO connection failed", w)
        else
          let sink := env.btSink.getD "bluez_sink"
          let w := { w with audioCfg :=
            { w.audioCfg with bt_device := some mac, bt_connected := true,
                              current_device := sink } }
          let w := worldSetAudioOutputDevice env w sink
          ("OK BT_AUDIO CONNECTED " ++ mac, w)
    | "STREAM_PHONE" =>
      match env.btList with
      | Except.error _ => ("ERR BT_AUDIO bluetooth not available", w)
      | Except.ok devs =>
        let connectedDev := match devs.find? (fun d => d.connected) with
          | some d => some d
          | none =>
            match devs.head? with
            | some first => if env.btConnectOk then some first else none
            | none => none
        match connectedDev with
        | none => ("ERR BT_AUDIO no phone paired or connection failed", w)
        | some dev =>
          -- the reconnect / PulseAudio-module dance touches only the OS
          match env.btSink with
          | none => ("ERR BT_AUDIO phone connected but no audio profile available", w)
          | some sink =>
            let w := { w with audioCfg :=
              { w.audioCfg with bt_device := some dev.mac, bt_connected := true,
                                current_device := sink } }
            let w := worldSetAudioOutputDevice env w sink
            ("OK BT_AUDIO STREAMING TO PHONE", w)
    | "DISCONNECT" =>
      match w.audioCfg.bt_device with
      | none => ("ERR BT_AUDIO no device connected", w)
      | some _ =>
        -- external disconnect for non-"PHONE" devices, then revert to speaker
        let w := { w with audioCfg :=
          { w.audioCfg with bt_device := none, bt_connected := false,
                            current_device := w.audioCfg.default_device } }
        let w := worldSetAudioOutputDevice env w w.audioCfg.default_device
        ("OK BT_AUDIO DISCONNECTED", w)
    | _ => ("ERR BT_AUDIO unknown subcommand", w)

/-- Extension filter used by `REMPOD SOUNDS` / `MUSICBOX SOUNDS`
(`.wav`, `.mp3`, `.ogg`, `.flac`). -/
def hasSoundExt (f : String) : Bool :=
  strTail (".wav") (pyLower f) || strTail (".mp3") (pyLower f)
  || strTail (".ogg") (pyLower f) || strTail (".flac") (pyLower f)

def cmdRempod (env : Env) (w : World) (args : List String) : String × World :=
  match args with
  | [] => ("ERR REMPOD needs subcommand", w)
  | a :: rest =>
    match pyUpper a with
    | "STATUS" =>
      ("OK REMPOD STATUS " ++ Json.dump (Json.obj w.rempod.toDictFields), w)
    | "ARM" =>
      ("OK REMPOD ARMED", { w with rempod := { w.rempod with armed := true } })
    | "DISARM" =>
      ("OK REMPOD DISARMED", { w with rempod := { w.rempod with armed := false } })
    | "SENSITIVITY" =>
      match rest.head? with
      | none => ("ERR REMPOD SENSITIVITY needs 1-5", w)
      | some lv =>
        match pyParseInt lv with
        | none => ("ERR REMPOD SENSITIVITY bad value", w)
        | some level =>
          if ¬(1 ≤ level ∧ level ≤ 5) then ("ERR REMPOD SENSITIVITY range 1-5", w)
          else
            ("OK REMPOD SENSITIVITY " ++ toString level,
             { w with rempod := { w.rempod with sensitivity := level } })
    | "TRIGGER" =>
      -- _rempod_trigger plays its sound on a freshly spawned thread
      let ttype := match rest.head? with
        | some t => pyUpper t
        | none => "EMF"
      ("OK REMPOD TRIGGER " ++ ttype, w)
    | "SOUND" =>
      match rest with
      | [] => ("ERR REMPOD SOUND needs filename", w)
      | _ =>
        let name := String.intercalate " " rest
        ("OK REMPOD SOUND " ++ name,
         { w with rempod := { w.rempod with alert_sound := name } })
    | "TEMP" =>
      match rest.head? with
      | none => ("ERR REMPOD TEMP needs ON/OFF", w)
      | some t =>
        match pyUpper t with
        | "ON" =>
          ("OK REMPOD TEMP ON", { w with rempod := { w.rempod with temp_alerts := true } })
        | "OFF" =>
          ("OK REMPOD TEMP OFF", { w with rempod := { w.rempod with temp_alerts := false } })
        | _ => ("ERR REMPOD TEMP needs ON/OFF", w)
    | "SIMULATE" =>
      match rest.head? with
      | none => ("ERR REMPOD SIMULATE needs START/STOP", w)
      | some act =>
        match pyUpper act with
        | "START" =>
          let r := { w.rempod with simulating := true }
          let r := match rest.tail.head? with
            | some iv =>
              match pyParseRat iv with
              | some q => { r with simulation_interval := q }
              | none => r
            | none => r
          ("OK REMPOD SIMULATE STARTED", { w with rempod := r })
        | "STOP" =>
          ("OK REMPOD SIMULATE STOPPED",
           { w with rempod := { w.rempod with simulating := false } })
        | _ => ("ERR REMPOD SIMULATE needs START/STOP", w)
    | "SOUNDS" =>
      match env.rempodSounds with
      | some files =>
        let files := (files.filter hasSoundExt).mergeSort (fun x y => decide (x ≤ y))
        ("OK REMPOD SOUNDS " ++ Json.dump (Json.arr (files.map Json.str)), w)
      | none => ("OK REMPOD SOUNDS []", w)
    | _ => ("ERR REMPOD unknown subcommand", w)

def cmdMusicbox (env : Env) (w : World) (args : List String) : String × World :=
  match args with
  | [] => ("ERR MUSICBOX needs subcommand", w)
  | a :: rest =>
    match pyUpper a with
    | "STATUS" =>
      ("OK MUSICBOX STATUS " ++ Json.dump (Json.obj w.musicbox.toDictFields), w)
    | "START" =>
      -- calibration then happens on a background thread
      ("OK MUSICBOX STARTED",
       { w with musicbox := { w.musicbox with active := true, calibrated := false } })
    | "STOP" =>
      ("OK MUSICBOX STOPPED",
       { w with musicbox := { w.musicbox with active := false, calibrated := false } })
    | "TRIGGER" =>
      ("OK MUSICBOX TRIGGER", w)
    | "SOUND" =>
      match rest with
      | [] => ("ERR MUSICBOX SOUND needs filename", w)
      | _ =>
        let name := String.intercalate " " rest
        ("OK MUSICBOX SOUND " ++ name,
         { w with musicbox := { w.musicbox with trigger_sound := name } })
    | "RANGE" =>
      match rest.head? with
      | none => ("ERR MUSICBOX RANGE needs meters (1-5)", w)
      | some rs =>
        match pyParseRat rs with
        | none => ("ERR MUSICBOX RANGE bad value", w)
        | some range_m =>
          if ¬(1 ≤ range_m ∧ range_m ≤ 5) then ("ERR MUSICBOX RANGE 1-5 meters", w)
          else
            ("OK MUSICBOX RANGE " ++ ratRepr range_m,
             { w with musicbox := { w.musicbox with detection_range := range_m } })
    | "SIMULATE" =>
      match rest.head? with
      | none => ("ERR MUSICBOX SIMULATE needs START/STOP", w)
      | some act =>
        match pyUpper act with
        | "START" =>
          let m := { w.musicbox with simulating := true }
          let m := match rest.tail.head? with
            | some iv =>
              match pyParseRat iv with
              | some q => { m with simulation_interval := q }
              | none => m
            | none => m
          ("OK MUSICBOX SIMULATE STARTED", { w with musicbox := m })
        | "STOP" =>
          ("OK MUSICBOX SIMULATE STOPPED",
           { w with musicbox := { w.musicbox with simulating := false } })
        | _ => ("ERR MUSICBOX SIMULATE needs START/STOP", w)
    | "PLAY" =>
      ("OK MUSICBOX PLAY", w)
    | "SOUNDS" =>
      match env.musicboxSounds with
      | some files =>
        let files := (files.filter hasSoundExt).mergeSort (fun x y => decide (x ≤ y))
        ("OK MUSICBOX SOUNDS " ++ Json.dump (Json.arr (files.map Json.str)), w)
      | none => ("OK MUSICBOX SOUNDS []", w)
    | _ => ("ERR MUSICBOX unknown subcommand", w)

def cmdFm (env : Env) (w : World) (args : List String) : String × World :=
  match args with
  | [] => ("ERR FM needs subcommand", w)
  | a :: rest =>
    match pyUpper a with
    | "TEST" =>
      match rest.head? with
      | none => ("ERR FM TEST needs frequency (MHz)", w)
      | some fs =>
        match pyParseRat fs with
        | none => ("ERR FM TEST bad frequency", w)
        | some freq =>
          if ¬(76 ≤ freq ∧ freq ≤ 108) then
            ("ERR FM TEST frequency range 76.0-108.0 MHz", w)
          else if env.tuneOk then
            -- start passthrough for 10 s; the delayed stop is a Timer
            ("OK FM TEST " ++ ratRepr freq ++ " (playing for 10s)",
             worldStartPassthrough env w)
          else ("ERR FM TEST tuner not available", w)
    | "TUNE" =>
      match rest.head? with
      | none => ("ERR FM TUNE needs frequency (MHz)", w)
      | some fs =>
        match pyParseRat fs with
        | none => ("ERR FM TUNE bad frequency", w)
        | some freq =>
          if ¬(76 ≤ freq ∧ freq ≤ 108) then
            ("ERR FM TUNE frequency range 76.0-108.0 MHz", w)
          else if env.tuneOk then ("OK FM TUNE " ++ ratRepr freq, w)
          else ("ERR FM TUNE tuner not available", w)
    | _ => ("ERR FM unknown subcommand", w)

def cmdMic (env : Env) (w : World) (args : List String) : String × World :=
  match args with
  | [] => ("ERR MIC needs subcommand", w)
  | a :: _ =>
    match pyUpper a with
    | "GAIN" =>
      ("ERR MIC GAIN locked at 15 (use MIC STATUS to verify)", w)
    | "STATUS" =>
      match env.micStatus with
      | Except.error e => ("ERR MIC STATUS failed: " ++ e, w)
      | Except.ok (some gain) => ("OK MIC STATUS " ++ gain, w)
      | Except.ok none => ("OK MIC STATUS unknown", w)
    | _ => ("ERR MIC unknown subcommand", w)

/-- The command words `handle_command` dispatches on. -/
def knownCmds : List String :=
  ["STATUS", "PING", "RESTART", "SHUTDOWN", "SPEED", "FASTER", "SLOWER",
   "DIR", "START", "STOP", "SWEEP_CFG", "BOX_CFG", "LED", "SOUND", "FX",
   "MIXER", "MUTE", "BT_AUDIO", "REMPOD", "MUSICBOX", "FM", "MIC"]

/-- `handle_command(command)` (lines 1889-2964): strip, reject empty
input, split on whitespace, uppercase the command word and dispatch. -/
def handleCommand (env : Env) (w : World) (command : String) : String × World :=
  let command := pyStrip command
  if command = "" then ("ERR Empty command", w)
  else
    let parts := pySplit command
    let args := parts.tail
    match pyUpper (parts.headD "") with
    | "STATUS" => cmdStatus env w
    | "PING" => cmdPing w
    | "RESTART" => cmdRestart env w
    | "SHUTDOWN" => cmdShutdown env w
    | "SPEED" => cmdSpeed env w args
    | "FASTER" => cmdFaster env w
    | "SLOWER" => cmdSlower env w
    | "DIR" => cmdDir env w args
    | "START" => cmdStart env w
    | "STOP" => cmdStop env w
    | "SWEEP_CFG" => cmdSweepCfg env w args
    | "BOX_CFG" => cmdBoxCfg env w args
    | "LED" => cmdLed env w args
    | "SOUND" => cmdSound env w args
    | "FX" => cmdFx env w args
    | "MIXER" => cmdMixer env w args
    | "MUTE" => cmdMute env w args
    | "BT_AUDIO" => cmdBtAudio env w args
    | "REMPOD" => cmdRempod env w args
    | "MUSICBOX" => cmdMusicbox env w args
    | "FM" => cmdFm env w args
    | "MIC" => cmdMic env w args
    | _ => ("ERR Unknown command", w)

/-! ## Response-shape predicate and concrete fixtures -/

/-- `p` is a prefix of `s` (character-level `str.startswith`). -/
def strHead (p s : String) : Bool := p.data.isPrefixOf s.data

/-- A dispatcher response is well-formed when it begins with `OK` or
with `ERR`. -/
def respOk (s : String) : Prop :=
  strHead ("OK") s = true ∨ strHead ("ERR") s = true

/-- Arbiter state for the C1 fixture: sweep running, FX enabled, the
effects pipeline alive, no passthrough. -/
def exC1State : AState :=
  { running := true
    fx := { enabled := true }
    fxNeedsRestart := false
    currentDevice := "plughw:3,0"
    fxProc := some ["sh", "-c", soxPipeline (clampFx { enabled := true }) "plughw:3,0"]
    ptProc := none }

/-- Arbiter state for the C2 witness: sweep stopped with both process
handles (impossibly) populated, to exercise both stops. -/
def exC2State : AState :=
  { running := false
    fx := { enabled := true }
    fxNeedsRestart := true
    currentDevice := "plughw:3,0"
    fxProc := some ["sh", "-c", "fx"]
    ptProc := some (buildPassthroughCmd "plughw:3,0") }

/-- Arbiter state for the C3 fixture: sweep running with FX disabled,
so the passthrough pipeline is the one alive. -/
def exC3State : AState :=
  { running := true
    fx := { enabled := false }
    fxNeedsRestart := false
    currentDevice := "plughw:3,0"
    fxProc := none
    ptProc := some (buildPassthroughCmd "plughw:3,0") }

/-- Player argv used by the C3 fixture. -/
def exC3PlayerCmd : List String := ["aplay", "-q", "/opt/oraclebox/sounds/Announcements/yes.wav"]

/-- Arbiter state for the C3 witness: effects pipeline alive. -/
def exC3FxState : AState :=
  { running := true
    fx := { enabled := true }
    fxNeedsRestart := false
    currentDevice := "plughw:3,0"
    fxProc := some ["sh", "-c", soxPipeline (clampFx { enabled := true }) "plughw:3,0"]
    ptProc := none }

/-- Initial shared state for two overlapping `play_sound` calls. -/
def exPlayWorld : PWorld := { fxAlive := false, needsRestart := false, players := 0 }

/-- A thread at the start of `play_sound`'s body. -/
def exPlayThread : PThread := { pc := 0, fxWas := false }

/-- Arbiter state for the C6 fixture: passthrough alive on `speaker`,
device about to change to `bt-sink-1` (spec scenario D's shape, with
passthrough rather than effects running). -/
def exC6State : AState :=
  { running := true
    fx := { enabled := false }
    fxNeedsRestart := false
    currentDevice := "speaker"
    fxProc := none
    ptProc := some (buildPassthroughCmd "speaker") }

/-- Arbiter state for the C6 witness tick: FX enabled and flagged for
restart after a device change to `bt-sink-1`. -/
def exC6TickState : AState :=
  { running := true
    fx := { enabled := true }
    fxNeedsRestart := true
    currentDevice := "bt-sink-1"
    fxProc := some ["sh", "-c", soxPipeline (clampFx { enabled := true }) "speaker"]
    ptProc := none }

/-- Arbiter state for the C7 witness. -/
def exC7State : AState :=
  { running := true
    fx := { enabled := true }
    fxNeedsRestart := true
    currentDevice := "plughw:3,0"
    fxProc := none
    ptProc := some (buildPassthroughCmd "plughw:3,0") }

/-- Environment for the C5 demonstration: writing the LED config file
fails (for example the filesystem is read-only or full). -/
def exC5Env : Env := { writeLedOk := false }

/-- Default world (all records at their `__init__` values). -/
def exWorld : World := {}

/-- Default environment. -/
def exEnv : Env := {}

/-- `FxConfig` for the C10 witness, holding out-of-range values of the
kind `FX PRESET SAVE` can store (it performs no range validation). -/
def exC10Fx : FxConfig :=
  { enabled := true
    bp_low := 9999
    bp_high := 150
    reverb_room := 400
    reverb_damping := -3
    reverb_wet := 1000
    reverb_dry := -50
    contrast_amount := 99
    pre_gain_db := 7
    post_gain_db := -5
    preset := "CUSTOM" }

/-- Per-step sweep snapshots for the C8 witness: `running` is true for
the first three steps and false from step 3 on, direction flipping
mid-ramp at step 2. -/
def exC8Snap (i : Nat) : Bool × Int :=
  (decide (i < 3), if i < 2 then 1 else -1)

/-- Same `running` components as `exC8Snap` with a constant direction. -/
def exC8Snap2 (i : Nat) : Bool × Int :=
  (decide (i < 3), 1)

/-! ## Helper lemmas -/

/-- A prefix of `l` is a prefix of `l ++ m`. -/
theorem strHead_append (p l m : String) (h : strHead p l = true) :
    strHead p (l ++ m) = true := by
  simp only [strHead, String.data_append] at *
  rw [List.isPrefixOf_iff_prefix] at h ⊢
  exact h.trans (List.prefix_append _ _)

/-! ## C10 — `build_sox_cmd_from_fx` clamps every parameter -/

/-- C10: `build_sox_cmd_from_fx` returns `none` exactly when effects
are disabled, and the command it builds is assembled from the clamped
snapshot, whose values always satisfy `100 ≤ bp_low ≤ 2000`,
`bp_low + 200 ≤ bp_high ≤ 5000`, and the documented clamp ranges of the
other parameters — for every stored `FxConfig`, including out-of-range
ones such as those written by `FX PRESET SAVE`. -/
theorem C10_buildSoxCmd_clamped (fx : FxConfig) (dev : String) :
    (buildSoxCmdFromFx fx dev = none ↔ fx.enabled = false)
    ∧ (∀ c, buildSoxCmdFromFx fx dev = some c →
        c = ["sh", "-c", soxPipeline (clampFx fx) dev])
    ∧ (100 ≤ (clampFx fx).bp_low ∧ (clampFx fx).bp_low ≤ 2000
       ∧ (clampFx fx).bp_low + 200 ≤ (clampFx fx).bp_high
       ∧ (clampFx fx).bp_high ≤ 5000
       ∧ 0 ≤ (clampFx fx).contrast_amount ∧ (clampFx fx).contrast_amount ≤ 40
       ∧ -24 ≤ (clampFx fx).pre_gain ∧ (clampFx fx).pre_gain ≤ 0
       ∧ 0 ≤ (clampFx fx).post_gain ∧ (clampFx fx).post_gain ≤ 18
       ∧ 0 ≤ (clampFx fx).room ∧ (clampFx fx).room ≤ 100
       ∧ 0 ≤ (clampFx fx).damp ∧ (clampFx fx).damp ≤ 100
       ∧ 0 ≤ (clampFx fx).wet ∧ (clampFx fx).wet ≤ 100
       ∧ 0 ≤ (clampFx fx).dry ∧ (clampFx fx).dry ≤ 100) := by
  refine ⟨?_, ?_, ?_⟩
  · unfold buildSoxCmdFromFx
    cases h : fx.enabled <;> simp [h]
  · intro c hc
    unfold buildSoxCmdFromFx at hc
    cases h : fx.enabled <;> simp [h] at hc
    exact hc.symm
  · unfold clampFx
    dsimp only
    omega

/-- C10 witness: a stored `FxConfig` with wildly out-of-range values
(as `FX PRESET SAVE` can produce); the built command exists and its
band edges are clamped to 2000 and 2200. -/
theorem C10_witness :
    100 ≤ (clampFx exC10Fx).bp_low
    ∧ (clampFx exC10Fx).bp_low + 200 ≤ (clampFx exC10Fx).bp_high
    ∧ (clampFx exC10Fx).bp_high ≤ 5000
    ∧ (clampFx exC10Fx).bp_low = 2000
    ∧ (clampFx exC10Fx).bp_high = 2200
    ∧ ["sh", "-c", soxPipeline (clampFx exC10Fx) ("plughw:3,0")]
        = ["sh", "-c", soxPipeline (clampFx exC10Fx) ("plughw:3,0")] := by
  have h := C10_buildSoxCmd_clamped exC10Fx ("plughw:3,0")
  exact ⟨h.2.2.1, h.2.2.2.2.1, h.2.2.2.2.2.1, by decide, by decide, h.2.1 _ rfl⟩

/-! ## C2 — a tick with `running = false` stops everything -/

/-- C2: on the first Arbiter tick after `SweepState.running` is false,
both the effects process and the passthrough process are stopped and no
process is started, so no continuous pipeline is alive within one tick
interval. -/
theorem C2_tick_stops_all_when_not_running (s : AState) (fxOk ptOk : Bool)
    (h : s.running = false) :
    (tick s fxOk ptOk).1.fxProc = none
    ∧ (tick s fxOk ptOk).1.ptProc = none
    ∧ noStarts (tick s fxOk ptOk).2 = true := by
  obtain ⟨run, fx, nr, dev, fxp, ptp⟩ := s
  simp only at h
  subst h
  cases fxp <;> cases ptp <;> simp [tick, noStarts]

/-- C2 witness: concrete stopped state with both pipelines alive. -/
theorem C2_witness :
    (tick exC2State true true).1.fxProc = none
    ∧ (tick exC2State true true).1.ptProc = none
    ∧ noStarts (tick exC2State true true).2 = true :=
  C2_tick_stops_all_when_not_running exC2State true true rfl

/-! ## C7 — the tick is idempotent -/

/-- C7: running the Arbiter tick twice in a row with the shared state
unchanged in between (and with process spawns succeeding) performs no
process actions on the second run. -/
theorem C7_tick_idempotent (s : AState) (fxOk ptOk : Bool)
    (hf : fxOk = true) (hp : ptOk = true) :
    (tick (tick s fxOk ptOk).1 fxOk ptOk).2 = [] := by
  subst hf; subst hp
  obtain ⟨run, fx, nr, dev, fxp, ptp⟩ := s
  obtain ⟨en, p1, p2, p3, p4, p5, p6, p7, p8, p9, p10⟩ := fx
  cases run <;> cases en <;> cases nr <;> cases fxp <;> cases ptp <;>
    simp [tick, startPassthrough, buildSoxCmdFromFx]

/-- C7 witness: concrete state (sweep running, FX enabled and flagged,
passthrough alive); the second tick does nothing. -/
theorem C7_witness : (tick (tick exC7State true true).1 true true).2 = [] :=
  C7_tick_idempotent exC7State true true rfl rfl

/-! ## C1 — mutual exclusion of the continuous pipelines -/

/-- C1 counterexample: with the effects pipeline alive (sweep running,
FX enabled), `FM TEST` starts the passthrough pipeline without stopping
the effects process — its only guard is `_passthrough_proc is not
None` — so both continuous pipelines are alive the moment it returns.
The claim that every operation starting a continuous pipeline
(including FM TEST) first fully stops the other is therefore false. -/
theorem C1_counterexample :
    atMostOnePipeline exC1State = true
    ∧ atMostOnePipeline (fmTest exC1State true true).1 = false
    ∧ (fmTest exC1State true true).2
        = [AAction.startPt (buildPassthroughCmd ("plughw:3,0"))] :=
  ⟨rfl, rfl, rfl⟩

/-- C1 amended: the Arbiter tick and the device-change path preserve
the at-most-one-continuous-pipeline invariant at every instant (each
start in their action sequences happens only after the other pipeline
has been stopped); `FM TEST`, however, starts the passthrough pipeline
without stopping a running effects pipeline, so both can be alive
immediately after it. -/
theorem C1_amended (s : AState) (fxOk ptOk : Bool) (d : String)
    (h : atMostOnePipeline s = true) :
    allInstantsExclusive (aliveOf s) (tick s fxOk ptOk).2 = true
    ∧ atMostOnePipeline (tick s fxOk ptOk).1 = true
    ∧ allInstantsExclusive (aliveOf s) (setAudioOutputDevice s d ptOk).2 = true
    ∧ atMostOnePipeline (setAudioOutputDevice s d ptOk).1 = true
    ∧ (s.fxProc.isSome = true → s.ptProc = none → ptOk = true →
        atMostOnePipeline (fmTest s true ptOk).1 = false) := by
  obtain ⟨run, fx, nr, dev, fxp, ptp⟩ := s
  obtain ⟨en, p1, p2, p3, p4, p5, p6, p7, p8, p9, p10⟩ := fx
  simp only [atMostOnePipeline] at h
  cases run <;> cases en <;> cases nr <;> cases fxp <;> cases ptp <;>
    cases fxOk <;> cases ptOk <;>
    simp_all [tick, setAudioOutputDevice, fmTest, startPassthrough,
      buildSoxCmdFromFx, allInstantsExclusive, execAlive, aliveOf,
      atMostOnePipeline]

/-- C1 witness: the amended theorem at the concrete fixture (effects
alive, passthrough absent), all hypotheses discharged. -/
theorem C1_witness :
    allInstantsExclusive (aliveOf exC1State) (tick exC1State true true).2 = true
    ∧ atMostOnePipeline (tick exC1State true true).1 = true
    ∧ allInstantsExclusive (aliveOf exC1State)
        (setAudioOutputDevice exC1State ("bt-sink-1") true).2 = true
    ∧ atMostOnePipeline (setAudioOutputDevice exC1State ("bt-sink-1") true).1 = true
    ∧ atMostOnePipeline (fmTest exC1State true true).1 = false := by
  obtain ⟨h1, h2, h3, h4, h5⟩ := C1_amended exC1State true true ("bt-sink-1") rfl
  exact ⟨h1, h2, h3, h4, h5 rfl rfl rfl⟩

/-! ## C3 — one-shot playback versus the continuous pipelines -/

/-- C3 counterexample: with the passthrough pipeline alive (sweep
running, FX disabled), `play_sound` does not stop it — it only
consults `_fx_proc` — so the player process starts and runs while the
passthrough pipeline stays alive, refuting "the playback operation
stops that continuous pipeline before the player process starts". -/
theorem C3_counterexample :
    exC3State.ptProc.isSome = true
    ∧ (playSound exC3State exC3PlayerCmd PlayOutcome.ok).2
        = [AAction.startPlayer exC3PlayerCmd, AAction.waitPlayer]
    ∧ (playSound exC3State exC3PlayerCmd PlayOutcome.ok).1.ptProc = exC3State.ptProc
    ∧ (playSound exC3State exC3PlayerCmd PlayOutcome.ok).1.fxNeedsRestart = false :=
  ⟨rfl, rfl, rfl, rfl⟩

/-- C3 amended: `play_sound` never touches the passthrough process;
when the *effects* pipeline is alive it stops it before the player
starts, and on every completion path (player ran, or its spawn raised)
the `finally` block sets `needs_restart` so the next Arbiter tick
rebuilds it — the playback path itself never emits a pipeline start. -/
theorem C3_amended (s : AState) (pc : List String) (o : PlayOutcome) :
    (playSound s pc o).1.ptProc = s.ptProc
    ∧ (s.fxProc.isSome = true →
        (playSound s pc o).2
          = AAction.stopFx ::
            (match o with
             | PlayOutcome.ok => [AAction.startPlayer pc, AAction.waitPlayer]
             | PlayOutcome.spawnFail => [])
        ∧ (playSound s pc o).1.fxProc = none
        ∧ (playSound s pc o).1.fxNeedsRestart = true
        ∧ ((playSound s pc o).2.all fun a => match a with
            | AAction.startFx _ => false
            | AAction.startPt _ => false
            | _ => true) = true) := by
  obtain ⟨run, fx, nr, dev, fxp, ptp⟩ := s
  cases fxp <;> cases o <;> simp [playSound]

/-- C3 witness: the amended theorem at a concrete state with the
effects pipeline alive. -/
theorem C3_witness :
    (playSound exC3FxState exC3PlayerCmd PlayOutcome.ok).1.ptProc = exC3FxState.ptProc
    ∧ (playSound exC3FxState exC3PlayerCmd PlayOutcome.ok).2
        = [AAction.stopFx, AAction.startPlayer exC3PlayerCmd, AAction.waitPlayer]
    ∧ (playSound exC3FxState exC3PlayerCmd PlayOutcome.ok).1.fxProc = none
    ∧ (playSound exC3FxState exC3PlayerCmd PlayOutcome.ok).1.fxNeedsRestart = true := by
  obtain ⟨h1, h2⟩ := C3_amended exC3FxState exC3PlayerCmd PlayOutcome.ok
  obtain ⟨ha, hb, hc, _⟩ := h2 rfl
  exact ⟨h1, ha, hb, hc⟩

/-! ## C4 — overlapping playback requests are not serialized -/

/-- C4 counterexample: `play_sound` takes no lock, so the interleaving
in which thread A spawns its player and thread B then spawns its own
(schedule A, A, B, B) is admissible and leaves two player processes
alive at once, with both threads still waiting — refuting "at no
instant do two player processes run concurrently". -/
theorem C4_counterexample :
    (runTwoPlays [true, true, false, false] exPlayWorld exPlayThread exPlayThread).1.players = 2
    ∧ (runTwoPlays [true, true, false, false] exPlayWorld exPlayThread exPlayThread).2.1.pc = 2
    ∧ (runTwoPlays [true, true, false, false] exPlayWorld exPlayThread exPlayThread).2.2.pc = 2 :=
  ⟨rfl, rfl, rfl⟩

/-- C4 amended: overlapping playback requests are *not* serialized —
no step of `play_sound` acquires a lock (every step of either thread is
enabled in every state), and there is a schedule of two overlapping
requests under which two player processes are alive simultaneously. -/
theorem C4_amended :
    ∃ sched : List Bool,
      (runTwoPlays sched exPlayWorld exPlayThread exPlayThread).1.players ≥ 2 :=
  ⟨[true, true, false, false], by decide⟩

/-! ## C6 — device change -/

/-- C6 counterexample: with passthrough running on `speaker`, changing
the device to `bt-sink-1` makes `set_audio_output_device` itself stop
and restart the passthrough pipeline, bound to the new device, before
any Arbiter tick runs — refuting "the rebuild decision being made by
the Arbiter's tick, not by the caller that changed the device". -/
theorem C6_counterexample :
    (setAudioOutputDevice exC6State ("bt-sink-1") true).2
      = [AAction.stopPt, AAction.startPt (buildPassthroughCmd ("bt-sink-1"))]
    ∧ (setAudioOutputDevice exC6State ("bt-sink-1") true).1.ptProc
      = some (buildPassthroughCmd ("bt-sink-1")) :=
  ⟨rfl, rfl⟩

/-- C6 amended: a device change records the new device and flags
`needs_restart`, never stopping or starting the effects process itself
(its rebuild — stop plus a start built from the current snapshot and
bound to the current, i.e. new, device — happens on the Arbiter's next
tick); a running *passthrough* pipeline, however, is stopped and
restarted directly inside `set_audio_output_device`, bound to the new
device, without waiting for a tick. -/
theorem C6_amended (s : AState) (d : String) (ptOk fxOk : Bool) :
    ((setAudioOutputDevice s d ptOk).1.currentDevice = d
     ∧ (setAudioOutputDevice s d ptOk).1.fxNeedsRestart = true
     ∧ (setAudioOutputDevice s d ptOk).1.fxProc = s.fxProc
     ∧ ((setAudioOutputDevice s d ptOk).2.all fun a => match a with
          | AAction.stopFx => false
          | AAction.startFx _ => false
          | _ => true) = true)
    ∧ (s.ptProc.isSome = true → ptOk = true →
        (setAudioOutputDevice s d ptOk).2
          = [AAction.stopPt, AAction.startPt (buildPassthroughCmd d)]
        ∧ (setAudioOutputDevice s d ptOk).1.ptProc = some (buildPassthroughCmd d))
    ∧ (s.running = true → s.fx.enabled = true → s.fxNeedsRestart = true →
        s.ptProc = none → fxOk = true →
        (tick s fxOk ptOk).1.fxProc
          = some ["sh", "-c", soxPipeline (clampFx s.fx) s.currentDevice]) := by
  obtain ⟨run, fx, nr, dev, fxp, ptp⟩ := s
  refine ⟨?_, ?_, ?_⟩
  · cases ptp <;> cases ptOk <;>
      simp [setAudioOutputDevice, startPassthrough]
  · intro hp hok
    simp only at hp
    cases ptp <;> simp_all [setAudioOutputDevice, startPassthrough]
  · intro hrun hen hnr hptp hfx
    simp only at hrun hen hnr hptp hfx
    subst hrun; subst hnr; subst hptp; subst hfx
    cases fxp <;> simp [tick, buildSoxCmdFromFx, hen]

/-- C6 witness: device change with passthrough running (conjuncts one
and two), then the rebuild tick for a state whose FX pipeline was
flagged by a device change to `bt-sink-1` (conjunct three, at
`exC6TickState`). -/
theorem C6_witness :
    (setAudioOutputDevice exC6State ("bt-sink-1") true).1.currentDevice = "bt-sink-1"
    ∧ (setAudioOutputDevice exC6State ("bt-sink-1") true).1.fxNeedsRestart = true
    ∧ (setAudioOutputDevice exC6State ("bt-sink-1") true).1.fxProc = exC6State.fxProc
    ∧ (setAudioOutputDevice exC6State ("bt-sink-1") true).1.ptProc
        = some (buildPassthroughCmd ("bt-sink-1"))
    ∧ (tick exC6TickState true true).1.fxProc
        = some ["sh", "-c",
            soxPipeline (clampFx exC6TickState.fx) ("bt-sink-1")] := by
  obtain ⟨h1, h2, h3⟩ := C6_amended exC6State ("bt-sink-1") true true
  obtain ⟨ha, hb, hc, _⟩ := h1
  obtain ⟨_, he⟩ := h2 rfl rfl
  obtain ⟨g1, g2, g3⟩ := C6_amended exC6TickState ("bt-sink-1") true true
  exact ⟨ha, hb, hc, he, g3 rfl rfl rfl rfl rfl⟩

/-! ## C8 — ramp abort and direction semantics -/

/-- If the running flag is true for the first `k` snapshots (counting
from `j`) and false at the `k`-th, the walk tunes exactly the first `k`
steps and aborts before the next one. -/
theorem runRampFrom_abort (snap : Nat → Bool × Int) :
    ∀ (steps : List Int) (j k : Nat),
      (∀ i, i < k → (snap (j + i)).1 = true) → (snap (j + k)).1 = false →
      runRampFrom snap j steps = steps.take k := by
  intro steps
  induction steps with
  | nil => intro j k _ _; simp [runRampFrom]
  | cons st rest ih =>
    intro j k h1 h2
    cases k with
    | zero =>
      have : (snap j).1 = false := by simpa using h2
      simp [runRampFrom, this]
    | succ k =>
      have hj : (snap j).1 = true := by simpa using h1 0 (Nat.succ_pos k)
      have ih2 := ih (j + 1) k
        (fun i hi => by
          have := h1 (i + 1) (Nat.succ_lt_succ hi)
          simpa [Nat.add_assoc, Nat.add_comm 1 i] using this)
        (by
          have : j + (k + 1) = j + 1 + k := by omega
          simpa [this] using h2)
      simp [runRampFrom, hj, ih2]

/-- The walk depends only on the running components of the snapshots:
the direction read at each step never alters the current ramp. -/
theorem runRampFrom_congr (snap snap2 : Nat → Bool × Int)
    (h : ∀ i, (snap i).1 = (snap2 i).1) :
    ∀ (steps : List Int) (j : Nat),
      runRampFrom snap j steps = runRampFrom snap2 j steps := by
  intro steps
  induction steps with
  | nil => intro j; simp [runRampFrom]
  | cons st rest ih => intro j; simp [runRampFrom, h j, ih]

/-- When running stays true the full ramp is walked. -/
theorem runRampFrom_all (snap : Nat → Bool × Int)
    (h : ∀ i, (snap i).1 = true) :
    ∀ (steps : List Int) (j : Nat), runRampFrom snap j steps = steps := by
  intro steps
  induction steps with
  | nil => intro j; simp [runRampFrom]
  | cons st rest ih => intro j; simp [runRampFrom, h j, ih]

/-- C8: (abort) if `running` becomes false at step `k` of a ramp, the
walk tunes exactly the first `k` frequencies and stops, with no further
action; (no mid-ramp ping-pong) the walk is independent of the
direction components of the per-step snapshots, so a direction change
mid-ramp leaves the current ramp unchanged; (fresh full ramp) a ramp
built afterwards from the newly read direction is the new direction's
complete 100-step ramp starting at the opposite band edge — 88.0 MHz
going up, 108.0 MHz going down. -/
theorem C8_sweep_ramp (steps : List Int) (snap snap2 : Nat → Bool × Int) (k : Nat) :
    ((∀ i, i < k → (snap i).1 = true) → (snap k).1 = false →
      runRamp steps snap = steps.take k)
    ∧ ((∀ i, (snap i).1 = (snap2 i).1) → runRamp steps snap = runRamp steps snap2)
    ∧ ((∀ i, (snap i).1 = true) → runRamp steps snap = steps)
    ∧ (rampSteps 1).head? = some 880
    ∧ (rampSteps 1).getLast? = some 1078
    ∧ (rampSteps 1).length = 100
    ∧ (rampSteps (-1)).head? = some 1080
    ∧ (rampSteps (-1)).getLast? = some 882
    ∧ (rampSteps (-1)).length = 100 := by
  refine ⟨?_, ?_, ?_, rfl, ?_, ?_, rfl, ?_, ?_⟩
  · intro h1 h2
    exact runRampFrom_abort snap steps 0 k (fun i hi => by simpa using h1 i hi)
      (by simpa using h2)
  · intro h
    exact runRampFrom_congr snap snap2 h steps 0
  · intro h
    exact runRampFrom_all snap h steps 0
  · rfl
  · rfl
  · rfl
  · rfl

/-- C8 witness: the up ramp against snapshots whose running flag drops
after three steps (with the direction flipping mid-ramp): exactly the
first three frequencies are tuned, and the direction components do not
matter. -/
theorem C8_witness :
    runRamp (rampSteps 1) exC8Snap = (rampSteps 1).take 3
    ∧ runRamp (rampSteps 1) exC8Snap = runRamp (rampSteps 1) exC8Snap2
    ∧ (rampSteps 1).head? = some 880 := by
  obtain ⟨h1, h2, _, h4, _⟩ := C8_sweep_ramp (rampSteps 1) exC8Snap exC8Snap2 3
  exact ⟨h1 (by decide) (by decide), h2 (fun i => rfl), h4⟩

/-! ## C9 — every `handle_command` response begins with OK or ERR -/

theorem respOk_of_ok (s : String) (h : strHead ("OK") s = true) : respOk s :=
  Or.inl h

theorem respOk_of_err (s : String) (h : strHead ("ERR") s = true) : respOk s :=
  Or.inr h

theorem cmdStatus_respOk (env : Env) (w : World) :
    respOk (cmdStatus env w).1 := by
  unfold cmdStatus
  repeat' (first | split | dsimp only)
  all_goals first
    | (apply respOk_of_ok
       first
        | decide
        | (apply strHead_append; decide)
        | (apply strHead_append; apply strHead_append; decide)
        | (apply strHead_append; apply strHead_append; apply strHead_append; decide))
    | (apply respOk_of_err
       first
        | decide
        | (apply strHead_append; decide)
        | (apply strHead_append; apply strHead_append; decide)
        | (apply strHead_append; apply strHead_append; apply strHead_append; decide))

theorem cmdPing_respOk (w : World) :
    respOk (cmdPing w).1 := by
  unfold cmdPing
  repeat' (first | split | dsimp only)
  all_goals first
    | (apply respOk_of_ok
       first
        | decide
        | (apply strHead_append; decide)
        | (apply strHead_append; apply strHead_append; decide)
        | (apply strHead_append; apply strHead_append; apply strHead_append; decide))
    | (apply respOk_of_err
       first
        | decide
        | (apply strHead_append; decide)
        | (apply strHead_append; apply strHead_append; decide)
        | (apply strHead_append; apply strHead_append; apply strHead_append; decide))

theorem cmdRestart_respOk (env : Env) (w : World) :
    respOk (cmdRestart env w).1 := by
  unfold cmdRestart
  repeat' (first | split | dsimp only)
  all_goals first
    | (apply respOk_of_ok
       first
        | decide
        | (apply strHead_append; decide)
        | (apply strHead_append; apply strHead_append; decide)
        | (apply strHead_append; apply strHead_append; apply strHead_append; decide))
    | (apply respOk_of_err
       first
        | decide
        | (apply strHead_append; decide)
        | (apply strHead_append; apply strHead_append; decide)
        | (apply strHead_append; apply strHead_append; apply strHead_append; decide))

theorem cmdShutdown_respOk (env : Env) (w : World) :
    respOk (cmdShutdown env w).1 := by
  unfold cmdShutdown
  repeat' (first | split | dsimp only)
  all_goals first
    | (apply respOk_of_ok
       first
        | decide
        | (apply strHead_append; decide)
        | (apply strHead_append; apply strHead_append; decide)
        | (apply strHead_append; apply strHead_append; apply strHead_append; decide))
    | (apply respOk_of_err
       first
        | decide
        | (apply strHead_append; decide)
        | (apply strHead_append; apply strHead_append; decide)
        | (apply strHead_append; apply strHead_append; apply strHead_append; decide))

theorem cmdSpeed_respOk (env : Env) (w : World) (args : List String) :
    respOk (cmdSpeed env w args).1 := by
  unfold cmdSpeed
  repeat' (first | split | dsimp only)
  all_goals first
    | (apply respOk_of_ok
       first
        | decide
        | (apply strHead_append; decide)
        | (apply strHead_append; apply strHead_append; decide)
        | (apply strHead_append; apply strHead_append; apply strHead_append; decide))
    | (apply respOk_of_err
       first
        | decide
        | (apply strHead_append; decide)
        | (apply strHead_append; apply strHead_append; decide)
        | (apply strHead_append; apply strHead_append; apply strHead_append; decide))

theorem cmdFaster_respOk (env : Env) (w : World) :
    respOk (cmdFaster env w).1 := by
  unfold cmdFaster
  repeat' (first | split | dsimp only)
  all_goals first
    | (apply respOk_of_ok
       first
        | decide
        | (apply strHead_append; decide)
        | (apply strHead_append; apply strHead_append; decide)
        | (apply strHead_append; apply strHead_append; apply strHead_append; decide))
    | (apply respOk_of_err
       first
        | decide
        | (apply strHead_append; decide)
        | (apply strHead_append; apply strHead_append; decide)
        | (apply strHead_append; apply strHead_append; apply strHead_append; decide))

theorem cmdSlower_respOk (env : Env) (w : World) :
    respOk (cmdSlower env w).1 := by
  unfold cmdSlower
  repeat' (first | split | dsimp only)
  all_goals first
    | (apply respOk_of_ok
       first
        | decide
        | (apply strHead_append; decide)
        | (apply strHead_append; apply strHead_append; decide)
        | (apply strHead_append; apply strHead_append; apply strHead_append; decide))
    | (apply respOk_of_err
       first
        | decide
        | (apply strHead_append; decide)
        | (apply strHead_append; apply strHead_append; decide)
        | (apply strHead_append; apply strHead_append; apply strHead_append; decide))

theorem cmdDir_respOk (env : Env) (w : World) (args : List String) :
    respOk (cmdDir env w args).1 := by
  unfold cmdDir
  repeat' (first | split | dsimp only)
  all_goals first
    | (apply respOk_of_ok
       first
        | decide
        | (apply strHead_append; decide)
        | (apply strHead_append; apply strHead_append; decide)
        | (apply strHead_append; apply strHead_append; apply strHead_append; decide))
    | (apply respOk_of_err
       first
        | decide
        | (apply strHead_append; decide)
        | (apply strHead_append; apply strHead_append; decide)
        | (apply strHead_append; apply strHead_append; apply strHead_append; decide))

theorem cmdStart_respOk (env : Env) (w : World) :
    respOk (cmdStart env w).1 := by
  unfold cmdStart
  repeat' (first | split | dsimp only)
  all_goals first
    | (apply respOk_of_ok
       first
        | decide
        | (apply strHead_append; decide)
        | (apply strHead_append; apply strHead_append; decide)
        | (apply strHead_append; apply strHead_append; apply strHead_append; decide))
    | (apply respOk_of_err
       first
        | decide
        | (apply strHead_append; decide)
        | (apply strHead_append; apply strHead_append; decide)
        | (apply strHead_append; apply strHead_append; apply strHead_append; decide))

theorem cmdStop_respOk (env : Env) (w : World) :
    respOk (cmdStop env w).1 := by
  unfold cmdStop
  repeat' (first | split | dsimp only)
  all_goals first
    | (apply respOk_of_ok
       first
        | decide
        | (apply strHead_append; decide)
        | (apply strHead_append; apply strHead_append; decide)
        | (apply strHead_append; apply strHead_append; apply strHead_append; decide))
    | (apply respOk_of_err
       first
        | decide
        | (apply strHead_append; decide)
        | (apply strHead_append; apply strHead_append; decide)
        | (apply strHead_append; apply strHead_append; apply strHead_append; decide))

theorem ledCfgApply_respOk (env : Env) (w : World) (f g : LedCfg → LedCfg) :
    respOk (ledCfgApply env w f g).1 := by
  unfold ledCfgApply
  repeat' (first | split | dsimp only)
  all_goals first
    | (apply respOk_of_ok
       first
        | decide
        | (apply strHead_append; decide)
        | (apply strHead_append; apply strHead_append; decide)
        | (apply strHead_append; apply strHead_append; apply strHead_append; decide))
    | (apply respOk_of_err
       first
        | decide
        | (apply strHead_append; decide)
        | (apply strHead_append; apply strHead_append; decide)
        | (apply strHead_append; apply strHead_append; apply strHead_append; decide))

set_option maxHeartbeats 400000 in
theorem cmdSweepCfg_respOk (env : Env) (w : World) (args : List String) :
    respOk (cmdSweepCfg env w args).1 := by
  unfold cmdSweepCfg
  repeat' (first | split | dsimp only)
  all_goals first
    | exact ledCfgApply_respOk _ _ _ _
    | (apply respOk_of_ok
       first
        | decide
        | (apply strHead_append; decide)
        | (apply strHead_append; apply strHead_append; decide)
        | (apply strHead_append; apply strHead_append; apply strHead_append; decide))
    | (apply respOk_of_err
       first
        | decide
        | (apply strHead_append; decide)
        | (apply strHead_append; apply strHead_append; decide)
        | (apply strHead_append; apply strHead_append; apply strHead_append; decide))

set_option maxHeartbeats 400000 in
theorem cmdBoxCfg_respOk (env : Env) (w : World) (args : List String) :
    respOk (cmdBoxCfg env w args).1 := by
  unfold cmdBoxCfg
  repeat' (first | split | dsimp only)
  all_goals first
    | exact ledCfgApply_respOk _ _ _ _
    | (apply respOk_of_ok
       first
        | decide
        | (apply strHead_append; decide)
        | (apply strHead_append; apply strHead_append; decide)
        | (apply strHead_append; apply strHead_append; apply strHead_append; decide))
    | (apply respOk_of_err
       first
        | decide
        | (apply strHead_append; decide)
        | (apply strHead_append; apply strHead_append; decide)
        | (apply strHead_append; apply strHead_append; apply strHead_append; decide))

set_option maxHeartbeats 400000 in
theorem cmdLed_respOk (env : Env) (w : World) (args : List String) :
    respOk (cmdLed env w args).1 := by
  unfold cmdLed
  repeat' (first | split | dsimp only)
  all_goals first
    | (apply respOk_of_ok
       first
        | decide
        | (apply strHead_append; decide)
        | (apply strHead_append; apply strHead_append; decide)
        | (apply strHead_append; apply strHead_append; apply strHead_append; decide))
    | (apply respOk_of_err
       first
        | decide
        | (apply strHead_append; decide)
        | (apply strHead_append; apply strHead_append; decide)
        | (apply strHead_append; apply strHead_append; apply strHead_append; decide))

set_option maxHeartbeats 400000 in
theorem cmdSound_respOk (env : Env) (w : World) (args : List String) :
    respOk (cmdSound env w args).1 := by
  unfold cmdSound
  repeat' (first | split | dsimp only)
  all_goals first
    | (apply respOk_of_ok
       first
        | decide
        | (apply strHead_append; decide)
        | (apply strHead_append; apply strHead_append; decide)
        | (apply strHead_append; apply strHead_append; apply strHead_append; decide))
    | (apply respOk_of_err
       first
        | decide
        | (apply strHead_append; decide)
        | (apply strHead_append; apply strHead_append; decide)
        | (apply strHead_append; apply strHead_append; apply strHead_append; decide))

theorem finishFxSet_respOk (env : Env) (w : World) (fx : FxConfig) (param : String) (value : Int) :
    respOk (finishFxSet env w fx param value).1 := by
  unfold finishFxSet
  repeat' (first | split | dsimp only)
  all_goals first
    | (apply respOk_of_ok
       first
        | decide
        | (apply strHead_append; decide)
        | (apply strHead_append; apply strHead_append; decide)
        | (apply strHead_append; apply strHead_append; apply strHead_append; decide))
    | (apply respOk_of_err
       first
        | decide
        | (apply strHead_append; decide)
        | (apply strHead_append; apply strHead_append; decide)
        | (apply strHead_append; apply strHead_append; apply strHead_append; decide))

set_option maxHeartbeats 800000 in
theorem fxSet_respOk (env : Env) (w : World) (param : String) (value : Int) :
    respOk (fxSet env w param value).1 := by
  unfold fxSet
  repeat' (first | split | dsimp only)
  all_goals first
    | exact finishFxSet_respOk _ _ _ _ _
    | (apply respOk_of_ok
       first
        | decide
        | (apply strHead_append; decide)
        | (apply strHead_append; apply strHead_append; decide)
        | (apply strHead_append; apply strHead_append; apply strHead_append; decide))
    | (apply respOk_of_err
       first
        | decide
        | (apply strHead_append; decide)
        | (apply strHead_append; apply strHead_append; decide)
        | (apply strHead_append; apply strHead_append; apply strHead_append; decide))

set_option maxHeartbeats 800000 in
theorem fxPresetSave_respOk (env : Env) (w : World) (rest2 : List String) :
    respOk (fxPresetSave env w rest2).1 := by
  unfold fxPresetSave intLiteralErr
  repeat' (first | split | dsimp only)
  all_goals first
    | (apply respOk_of_ok
       first
        | decide
        | (apply strHead_append; decide)
        | (apply strHead_append; apply strHead_append; decide)
        | (apply strHead_append; apply strHead_append; apply strHead_append; decide))
    | (apply respOk_of_err
       first
        | decide
        | (apply strHead_append; decide)
        | (apply strHead_append; apply strHead_append; decide)
        | (apply strHead_append; apply strHead_append; apply strHead_append; decide))

set_option maxHeartbeats 1000000 in
theorem cmdFx_respOk (env : Env) (w : World) (args : List String) :
    respOk (cmdFx env w args).1 := by
  unfold cmdFx
  repeat' (first | split | dsimp only)
  all_goals first
    | exact fxSet_respOk _ _ _ _
    | exact fxPresetSave_respOk _ _ _
    | (apply respOk_of_ok
       first
        | decide
        | (apply strHead_append; decide)
        | (apply strHead_append; apply strHead_append; decide)
        | (apply strHead_append; apply strHead_append; apply strHead_append; decide))
    | (apply respOk_of_err
       first
        | decide
        | (apply strHead_append; decide)
        | (apply strHead_append; apply strHead_append; decide)
        | (apply strHead_append; apply strHead_append; apply strHead_append; decide))

set_option maxHeartbeats 400000 in
theorem cmdMixer_respOk (env : Env) (w : World) (args : List String) :
    respOk (cmdMixer env w args).1 := by
  unfold cmdMixer
  repeat' (first | split | dsimp only)
  all_goals first
    | (apply respOk_of_ok
       first
        | decide
        | (apply strHead_append; decide)
        | (apply strHead_append; apply strHead_append; decide)
        | (apply strHead_append; apply strHead_append; apply strHead_append; decide))
    | (apply respOk_of_err
       first
        | decide
        | (apply strHead_append; decide)
        | (apply strHead_append; apply strHead_append; decide)
        | (apply strHead_append; apply strHead_append; apply strHead_append; decide))

theorem cmdMute_respOk (env : Env) (w : World) (args : List String) :
    respOk (cmdMute env w args).1 := by
  unfold cmdMute
  repeat' (first | split | dsimp only)
  all_goals first
    | (apply respOk_of_ok
       first
        | decide
        | (apply strHead_append; decide)
        | (apply strHead_append; apply strHead_append; decide)
        | (apply strHead_append; apply strHead_append; apply strHead_append; decide))
    | (apply respOk_of_err
       first
        | decide
        | (apply strHead_append; decide)
        | (apply strHead_append; apply strHead_append; decide)
        | (apply strHead_append; apply strHead_append; apply strHead_append; decide))

set_option maxHeartbeats 1000000 in
theorem cmdBtAudio_respOk (env : Env) (w : World) (args : List String) :
    respOk (cmdBtAudio env w args).1 := by
  unfold cmdBtAudio
  repeat' (first | split | dsimp only)
  all_goals first
    | (apply respOk_of_ok
       first
        | decide
        | (apply strHead_append; decide)
        | (apply strHead_append; apply strHead_append; decide)
        | (apply strHead_append; apply strHead_append; apply strHead_append; decide))
    | (apply respOk_of_err
       first
        | decide
        | (apply strHead_append; decide)
        | (apply strHead_append; apply strHead_append; decide)
        | (apply strHead_append; apply strHead_append; apply strHead_append; decide))

set_option maxHeartbeats 1000000 in
theorem cmdRempod_respOk (env : Env) (w : World) (args : List String) :
    respOk (cmdRempod env w args).1 := by
  unfold cmdRempod
  repeat' (first | split | dsimp only)
  all_goals first
    | (apply respOk_of_ok
       first
        | decide
        | (apply strHead_append; decide)
        | (apply strHead_append; apply strHead_append; decide)
        | (apply strHead_append; apply strHead_append; apply strHead_append; decide))
    | (apply respOk_of_err
       first
        | decide
        | (apply strHead_append; decide)
        | (apply strHead_append; apply strHead_append; decide)
        | (apply strHead_append; apply strHead_append; apply strHead_append; decide))

set_option maxHeartbeats 1000000 in
theorem cmdMusicbox_respOk (env : Env) (w : World) (args : List String) :
    respOk (cmdMusicbox env w args).1 := by
  unfold cmdMusicbox
  repeat' (first | split | dsimp only)
  all_goals first
    | (apply respOk_of_ok
       first
        | decide
        | (apply strHead_append; decide)
        | (apply strHead_append; apply strHead_append; decide)
        | (apply strHead_append; apply strHead_append; apply strHead_append; decide))
    | (apply respOk_of_err
       first
        | decide
        | (apply strHead_append; decide)
        | (apply strHead_append; apply strHead_append; decide)
        | (apply strHead_append; apply strHead_append; apply strHead_append; decide))

set_option maxHeartbeats 400000 in
theorem cmdFm_respOk (env : Env) (w : World) (args : List String) :
    respOk (cmdFm env w args).1 := by
  unfold cmdFm
  repeat' (first | split | dsimp only)
  all_goals first
    | (apply respOk_of_ok
       first
        | decide
        | (apply strHead_append; decide)
        | (apply strHead_append; apply strHead_append; decide)
        | (apply strHead_append; apply strHead_append; apply strHead_append; decide))
    | (apply respOk_of_err
       first
        | decide
        | (apply strHead_append; decide)
        | (apply strHead_append; apply strHead_append; decide)
        | (apply strHead_append; apply strHead_append; apply strHead_append; decide))

theorem cmdMic_respOk (env : Env) (w : World) (args : List String) :
    respOk (cmdMic env w args).1 := by
  unfold cmdMic
  repeat' (first | split | dsimp only)
  all_goals first
    | (apply respOk_of_ok
       first
        | decide
        | (apply strHead_append; decide)
        | (apply strHead_append; apply strHead_append; decide)
        | (apply strHead_append; apply strHead_append; apply strHead_append; decide))
    | (apply respOk_of_err
       first
        | decide
        | (apply strHead_append; decide)
        | (apply strHead_append; apply strHead_append; decide)
        | (apply strHead_append; apply strHead_append; apply strHead_append; decide))

/-- C9: every response of `handle_command` begins with `OK` or with
`ERR`; the empty (or whitespace-only) command yields exactly
`ERR Empty command`, and any first word outside the command table
yields exactly `ERR Unknown command` — for every input string, shared
state and environment. -/
theorem C9_handleCommand_resp_shape (env : Env) (w : World) (command : String) :
    respOk (handleCommand env w command).1
    ∧ (pyStrip command = "" → (handleCommand env w command).1 = "ERR Empty command")
    ∧ (pyStrip command ≠ "" →
        pyUpper ((pySplit (pyStrip command)).headD "") ∉ knownCmds →
        (handleCommand env w command).1 = "ERR Unknown command") := by
  refine ⟨?_, ?_, ?_⟩
  · unfold handleCommand
    repeat' (first | split | dsimp only)
    · exact respOk_of_err _ (by decide)
    · exact cmdStatus_respOk _ _
    · exact cmdPing_respOk _
    · exact cmdRestart_respOk _ _
    · exact cmdShutdown_respOk _ _
    · exact cmdSpeed_respOk _ _ _
    · exact cmdFaster_respOk _ _
    · exact cmdSlower_respOk _ _
    · exact cmdDir_respOk _ _ _
    · exact cmdStart_respOk _ _
    · exact cmdStop_respOk _ _
    · exact cmdSweepCfg_respOk _ _ _
    · exact cmdBoxCfg_respOk _ _ _
    · exact cmdLed_respOk _ _ _
    · exact cmdSound_respOk _ _ _
    · exact cmdFx_respOk _ _ _
    · exact cmdMixer_respOk _ _ _
    · exact cmdMute_respOk _ _ _
    · exact cmdBtAudio_respOk _ _ _
    · exact cmdRempod_respOk _ _ _
    · exact cmdMusicbox_respOk _ _ _
    · exact cmdFm_respOk _ _ _
    · exact cmdMic_respOk _ _ _
    · exact respOk_of_err _ (by decide)
  · intro h
    unfold handleCommand
    dsimp only
    rw [if_pos h]
  · intro h1 h2
    unfold handleCommand
    dsimp only
    rw [if_neg h1]
    split
    all_goals first
      | rfl
      | (rename_i heq
         rw [heq] at h2
         exact absurd (by decide) h2)

/-- C9 witness: the theorem applied at a default world: a well-formed
command, a whitespace-only command, and an unknown command word. -/
theorem C9_witness :
    respOk (handleCommand exEnv exWorld "FX STATUS").1
    ∧ (handleCommand exEnv exWorld "   ").1 = "ERR Empty command"
    ∧ (handleCommand exEnv exWorld "HELLO world").1 = "ERR Unknown command" := by
  refine ⟨(C9_handleCommand_resp_shape exEnv exWorld ("FX STATUS")).1, ?_, ?_⟩
  · exact (C9_handleCommand_resp_shape exEnv exWorld ("   ")).2.1 (by decide)
  · exact (C9_handleCommand_resp_shape exEnv exWorld ("HELLO world")).2.2
      (by decide) (by decide)

/-! ## C5 — failed config save: no rollback, no error -/

/-- C5: `LedConfig.save` catches every exception internally, so a
failed config-file write is invisible to `handle_command`: the
`except`-rollback branch is dead code.  At the failing input
`SWEEP_CFG MIN 5` with the LED-config write failing, the command
still answers `OK`, memory holds the new value 5, and disk keeps the
old value 0 — memory and disk diverge, with no error reported, where
the claim (and the dead rollback code's evident intent) requires a
rollback and an error response. -/
theorem C5_save_failure_no_rollback :
    (∀ (env : Env) (w : World), (ledSave env w).2 = false)
    ∧ exC5Env.writeLedOk = false
    ∧ (handleCommand exC5Env exWorld "SWEEP_CFG MIN 5").1 = "OK"
    ∧ (handleCommand exC5Env exWorld "SWEEP_CFG MIN 5").2.led.sweep_min_brightness = 5
    ∧ (handleCommand exC5Env exWorld "SWEEP_CFG MIN 5").2.ledDisk.sweep_min_brightness = 0 :=
  ⟨fun _ _ => rfl, rfl, rfl, rfl, rfl⟩

end OracleBox
